import Mathlib

/-!
Verification of the mcpgo scaffolding tool server.

The repository is a stdio MCP server exposing six tools; every tool handler is
a function from named string arguments to a single text or error result.  This
file gives a shallow embedding of the handlers in
`internal/tools/fix_app.go`, `internal/tools/produce_api_controller_boilerplate.go`
(which also holds the service tool), `internal/tools/produce_app_boilerplate.go`
(which also holds the HTML-controller tool) and the model tool source, and
proves the specified properties about them.

Strings are modelled as Lean strings (lists of characters).  The Go casing
functions `strings.Title` and `strings.ToLower` are modelled at the ASCII
level: ASCII letters are cased as Go does, every other character is left
unchanged.  The JSON decoding performed by `encoding/json` into a value of
type list-of-string-to-string maps is modelled by an executable
recursive-descent decoder for the grammar that type accepts: an array of
objects with string keys and string values.
-/

set_option maxHeartbeats 1000000

/-- ASCII model of Go's unicode.ToTitle as applied by strings.Title: a
lowercase ASCII letter is mapped to the corresponding uppercase letter; every
other character is unchanged. -/
def goToTitle (c : Char) : Char :=
  if 97 ≤ c.toNat ∧ c.toNat ≤ 122 then Char.ofNat (c.toNat - 32) else c

/-- ASCII model of Go's unicode.ToLower as applied by strings.ToLower: an
uppercase ASCII letter is mapped to the corresponding lowercase letter; every
other character is unchanged. -/
def goToLowerChar (c : Char) : Char :=
  if 65 ≤ c.toNat ∧ c.toNat ≤ 90 then Char.ofNat (c.toNat + 32) else c

/-- Model of the isSeparator predicate used by Go's strings.Title: among ASCII
characters, exactly the characters that are not alphanumeric and not the
underscore are separators; non-ASCII characters are treated as
non-separators. -/
def isSeparator (c : Char) : Bool :=
  if c.toNat ≤ 127 then
    !(decide ((48 ≤ c.toNat ∧ c.toNat ≤ 57) ∨ (97 ≤ c.toNat ∧ c.toNat ≤ 122) ∨
        (65 ≤ c.toNat ∧ c.toNat ≤ 90) ∨ c.toNat = 95))
  else false

/-- Character-list core of strings.Title: a character is title-cased exactly
when the previous original character (initially a separator) is a
separator. -/
def titleMap (prev : Char) : List Char → List Char
  | [] => []
  | c :: cs => (if isSeparator prev then goToTitle c else c) :: titleMap c cs

/-- Go strings.Title (ASCII model), the capitalization transform applied to
model and field names by the boilerplate handlers. -/
def goTitle (s : String) : String := String.mk (titleMap ' ' s.data)

/-- Go strings.ToLower (ASCII model). -/
def goToLower (s : String) : String := String.mk (s.data.map goToLowerChar)

/-- Go strings.Join with a separator. -/
def goJoin (sep : String) : List String → String
  | [] => ""
  | [s] => s
  | s :: s2 :: rest => s ++ sep ++ goJoin sep (s2 :: rest)

/-- Prefix test on character lists. -/
def isPrefixL : List Char → List Char → Bool
  | [], _ => true
  | _ :: _, [] => false
  | p :: ps, c :: cs => p = c && isPrefixL ps cs

/-- Substring occurrence test on character lists (Go strings.Contains
semantics: the pattern occurs at some position, and the empty pattern always
occurs). -/
def isInfixL (pat : List Char) : List Char → Bool
  | [] => isPrefixL pat []
  | c :: cs => isPrefixL pat (c :: cs) || isInfixL pat cs

/-- Go strings.Contains. -/
def goContains (s pat : String) : Bool := isInfixL pat.data s.data

/-- Splitting a character list at every newline character; the result always
has one more chunk than the number of newlines. -/
def splitNl : List Char → List (List Char)
  | [] => [[]]
  | c :: cs =>
    if c = '\n' then [] :: splitNl cs
    else (splitNl cs).modifyHead (fun l => c :: l)

/-- The lines of a string: chunks between newline characters. -/
def linesOf (s : String) : List String := (splitNl s.data).map String.mk

/-- A tool request: the named string arguments of an mcp CallToolRequest. -/
structure CallToolRequest where
  args : List (String × String)

/-- Model of mcp-go CallToolRequest.GetString: the value of the named argument
when present, otherwise the supplied default. -/
def getString (req : CallToolRequest) (key dflt : String) : String :=
  match req.args.lookup key with
  | some v => v
  | none => dflt

/-- Modelled from the mcp-go library (external dependency):
CallToolRequest.RequireString returns the argument value, or an error whose
message names the missing argument. -/
def requireString (req : CallToolRequest) (key : String) : Except String String :=
  match req.args.lookup key with
  | some v => .ok v
  | none => .error ("required argument \"" ++ key ++ "\" not found")

/-- Model of a CallToolResult: either a text result (NewToolResultText) or an
error result (NewToolResultError, the InputError payload of the spec). -/
inductive ToolResult where
  | text (s : String)
  | error (s : String)
deriving DecidableEq

/-- Whitespace characters skipped by the JSON decoder model. -/
def isJsonWs (c : Char) : Bool :=
  c = ' ' || c = '\t' || c = '\n' || c = '\r'

/-- Drop leading JSON whitespace. -/
def skipWs : List Char → List Char
  | [] => []
  | c :: cs => if isJsonWs c then skipWs cs else c :: cs

/-- Single-character JSON string escapes handled by the decoder model. -/
def jsonEsc (c : Char) : Option Char :=
  if c = '"' then some '"'
  else if c = '\\' then some '\\'
  else if c = '/' then some '/'
  else if c = 'n' then some '\n'
  else if c = 't' then some '\t'
  else if c = 'r' then some '\r'
  else if c = 'b' then some '\x08'
  else if c = 'f' then some '\x0c'
  else none

/-- Body of a JSON string after the opening quote: returns the decoded string
and the rest of the input after the closing quote.  Fuel-driven; it is always
called with more fuel than characters, so fuel never runs out. -/
def parseJsonString (fuel : Nat) (cs : List Char) (acc : List Char) :
    Option (String × List Char) :=
  match fuel with
  | 0 => none
  | fuel + 1 =>
    match cs with
    | [] => none
    | c :: cs =>
      if c = '"' then some (String.mk acc.reverse, cs)
      else if c = '\\' then
        match cs with
        | [] => none
        | e :: cs2 =>
          match jsonEsc e with
          | some d => parseJsonString fuel cs2 (d :: acc)
          | none => none
      else parseJsonString fuel cs (c :: acc)

/-- Members of a JSON object of string keys and string values, after the
opening brace of a non-empty object. -/
def parseMembers (fuel : Nat) (cs : List Char) (acc : List (String × String)) :
    Option (List (String × String) × List Char) :=
  match fuel with
  | 0 => none
  | fuel + 1 =>
    match skipWs cs with
    | '"' :: cs1 =>
      match parseJsonString (cs1.length + 1) cs1 [] with
      | none => none
      | some (k, cs2) =>
        match skipWs cs2 with
        | ':' :: cs3 =>
          match skipWs cs3 with
          | '"' :: cs4 =>
            match parseJsonString (cs4.length + 1) cs4 [] with
            | none => none
            | some (v, cs5) =>
              match skipWs cs5 with
              | ',' :: cs6 => parseMembers fuel cs6 (acc ++ [(k, v)])
              | '\x7d' :: cs6 => some (acc ++ [(k, v)], cs6)
              | _ => none
          | _ => none
        | _ => none
    | _ => none

/-- One JSON object of string keys and string values. -/
def parseObject (cs : List Char) : Option (List (String × String) × List Char) :=
  match skipWs cs with
  | '\x7b' :: cs1 =>
    match skipWs cs1 with
    | '\x7d' :: cs2 => some ([], cs2)
    | _ => parseMembers (cs1.length + 1) cs1 []
  | _ => none

/-- The comma-separated objects of a non-empty JSON array, up to the closing
bracket. -/
def parseElements (fuel : Nat) (cs : List Char)
    (acc : List (List (String × String))) :
    Option (List (List (String × String)) × List Char) :=
  match fuel with
  | 0 => none
  | fuel + 1 =>
    match parseObject cs with
    | none => none
    | some (obj, cs1) =>
      match skipWs cs1 with
      | ',' :: cs2 => parseElements fuel cs2 (acc ++ [obj])
      | ']' :: cs2 => some (acc ++ [obj], cs2)
      | _ => none

/-- Modelled from the encoding/json decode (external library) of the fields
argument into a Go list of string-to-string maps: a JSON array of objects
whose keys and values are strings, with the common single-character escapes
and surrounding whitespace; any other payload is a decode error.  Object key
order and duplicates are kept; lookups apply Go map semantics via mapGet. -/
def parseFields (s : String) : Option (List (List (String × String))) :=
  match skipWs s.data with
  | '[' :: cs =>
    match skipWs cs with
    | ']' :: cs2 => if skipWs cs2 = [] then some [] else none
    | _ =>
      match parseElements (cs.length + 1) cs [] with
      | none => none
      | some (l, rest) => if skipWs rest = [] then some l else none
  | _ => none

/-- Value of a key in a decoded JSON object, with Go map semantics: the last
occurrence of a duplicated key wins, and a missing key yields the empty
string (the zero value the handler reads). -/
def mapGet (m : List (String × String)) (k : String) : String :=
  match m.reverse.lookup k with
  | some v => v
  | none => ""

/-- The struct-field line built for one decoded field descriptor: a tab,
strings.Title of the field name, a space, the type string as supplied, and a
json tag carrying the original field name. -/
def mkFieldLine (name fieldType : String) : String :=
  "\t" ++ goTitle name ++ " " ++ fieldType ++ " \x60json:\"" ++ name ++ "\"\x60"

/-- The struct-field lines generated by ProduceModelBoilerplateHandler for the
decoded field list, one per descriptor, in input order. -/
def structFieldsOf (fields : List (List (String × String))) : List String :=
  fields.map (fun field => mkFieldLine (mapGet field "name") (mapGet field "type"))

/-- A declared tool parameter: its name and whether the schema marks it
required. -/
structure ParamDef where
  key : String
  required : Bool
deriving DecidableEq

/-- A declared tool: tool name and parameter schema. -/
structure ToolDef where
  toolName : String
  params : List ParamDef
deriving DecidableEq

/-- Whether a tool schema marks a parameter required (false also when the
parameter is not declared at all). -/
def paramRequired (t : ToolDef) (key : String) : Bool :=
  match t.params.find? (fun p => p.key = key) with
  | some p => p.required
  | none => false

/-- Schema of produce_model_boilerplate: app_name optional, model_name and
fields required. -/
def getProduceModelBoilerplateTool : ToolDef :=
  ⟨"produce_model_boilerplate",
    [⟨"app_name", false⟩, ⟨"model_name", true⟩, ⟨"fields", true⟩]⟩

/-- Schema of produce_api_controller_boilerplate: app_name optional,
model_name required. -/
def getProduceApiControllerBoilerplateTool : ToolDef :=
  ⟨"produce_api_controller_boilerplate",
    [⟨"app_name", false⟩, ⟨"model_name", true⟩]⟩

/-- Schema of produce_service_boilerplate: app_name optional, model_name
required. -/
def getProduceServiceBoilerplateTool : ToolDef :=
  ⟨"produce_service_boilerplate",
    [⟨"app_name", false⟩, ⟨"model_name", true⟩]⟩

/-- Schema of produce_html_controller_boilerplate: app_name optional,
model_name required. -/
def getProduceHtmlControllerBoilerplateTool : ToolDef :=
  ⟨"produce_html_controller_boilerplate",
    [⟨"app_name", false⟩, ⟨"model_name", true⟩]⟩

/-- Schema of produce_app_boilerplate: app_name required. -/
def getProduceAppBoilerplateTool : ToolDef :=
  ⟨"produce_app_boilerplate", [⟨"app_name", true⟩]⟩

/-- Schema of fix_app: both parameters optional. -/
def getFixAppTool : ToolDef :=
  ⟨"fix_app", [⟨"app_name", false⟩, ⟨"error_message", false⟩]⟩
/-- Template of the model declaration built by ProduceModelBoilerplateHandler (part_002, modelContent Sprintf); the two parameters are strings.Title of the model name and strings.Join of the struct-field lines. -/
def modelContentTemplate (titleName joinedFields : String) : String :=
  "package models\n\nimport \"gorm.io/gorm\"\n\ntype " ++ titleName ++ " struct \x7b\n\tgorm.Model\n" ++
  joinedFields ++ "\n\x7d\n"

/-- Response template of ProduceModelBoilerplateHandler (part_002); arguments are titleModelName, lowerModelName, modelContent, titleModelName, lowerModelName, appName. -/
def produceModelResponse (a1 a2 a3 a4 a5 a6 : String) : String :=
  "\n# Model and Repository Scaffold Instructions\n\nTo scaffold the model \x27" ++ a1 ++
  "\x27 and its repository, please perform the following steps:\n\n" ++
  "Note: The model includes \x27gorm.Model\x27 which provides the following fields automatically:\n" ++
  "- ID (uint, primary key)\n- CreatedAt (time.Time)\n- UpdatedAt (time.Time)\n" ++
  "- DeletedAt (soft delete with index)\n\n" ++
  "These fields don\x27t need to be added manually to your model.\n\n" ++
  "1. Create or update the file at \x60internal/models/" ++ a2 ++
  ".go\x60 with the following content:\n\x60\x60\x60go\n" ++ a3 ++
  "\n\x60\x60\x60\n\n2. Create the repository directory (or ensure it exists):\n" ++
  "   \x60mkdir -p internal/repository/" ++ a2 ++
  "\x60\n\n3. For each of the following, create or update the file in \x60internal/repository/" ++ a2 ++
  "/\x60 as needed:\n\n   a. \x60repo.go\x60 (constructor and interface for dependency injection):\n" ++
  "\x60\x60\x60go\npackage repository\n\nimport (\n\t\"context\"\n\t\"gorm.io/gorm\"\n\t\"" ++ a6 ++
  "/internal/models\"\n)\n\ntype " ++ a4 ++ "Repository interface \x7b\n\tCreate(ctx context.Context, " ++ a5 ++
  " *models." ++ a4 ++ ") error\n\tUpdate(ctx context.Context, " ++ a5 ++ " *models." ++ a4 ++
  ") error\n\tDelete(ctx context.Context, id uint) error\n" ++
  "\tGet(ctx context.Context, filters map[string]interface\x7b\x7d) ([]models." ++ a4 ++
  ", error)\n\x7d\n\ntype " ++ a4 ++ "RepositoryImpl struct \x7b\n\tdb *gorm.DB\n\x7d\n\nfunc New" ++ a4 ++
  "Repository(db *gorm.DB) " ++ a4 ++ "Repository \x7b\n\treturn &" ++ a4 ++
  "RepositoryImpl\x7bdb: db\x7d\n\x7d\n\x60\x60\x60\n\n   b. \x60create.go\x60 (Create method):\n" ++
  "\x60\x60\x60go\npackage repository\n\nimport (\n\t\"context\"\n\t\"" ++ a6 ++
  "/internal/models\"\n)\n\nfunc (r *" ++ a4 ++ "RepositoryImpl) Create(ctx context.Context, " ++ a5 ++
  " *models." ++ a4 ++ ") error \x7b\n\treturn r.db.WithContext(ctx).Create(" ++ a5 ++
  ").Error\n\x7d\n\x60\x60\x60\n\n   c. \x60update.go\x60 (Update method):\n\x60\x60\x60go\n" ++
  "package repository\n\nimport (\n\t\"context\"\n\t\"" ++ a6 ++ "/internal/models\"\n)\n\nfunc (r *" ++ a4 ++
  "RepositoryImpl) Update(ctx context.Context, " ++ a5 ++ " *models." ++ a4 ++
  ") error \x7b\n\treturn r.db.WithContext(ctx).Save(" ++ a5 ++
  ").Error\n\x7d\n\x60\x60\x60\n\n   d. \x60delete.go\x60 (Delete method):\n\x60\x60\x60go\n" ++
  "package repository\n\nimport (\n\t\"context\"\n\t\"" ++ a6 ++ "/internal/models\"\n)\n\nfunc (r *" ++ a4 ++
  "RepositoryImpl) Delete(ctx context.Context, id uint) error \x7b\n" ++
  "\treturn r.db.WithContext(ctx).Delete(&models." ++ a4 ++ "\x7b\x7d, id).Error\n\x7d\n\x60\x60\x60\n\n" ++
  "   e. \x60get.go\x60 (Get method - many-to-many with filtering):\n\x60\x60\x60go\n" ++
  "package repository\n\nimport (\n\t\"context\"\n\t\"fmt\"\n\t\"" ++ a6 ++
  "/internal/models\"\n)\n\nfunc (r *" ++ a4 ++
  "RepositoryImpl) Get(ctx context.Context, filters map[string]interface\x7b\x7d) ([]models." ++ a4 ++
  ", error) \x7b\n\tvar " ++ a5 ++ " []models." ++ a4 ++
  "\n\tquery := r.db.WithContext(ctx)\n\tfor key, value := range filters \x7b\n" ++
  "\t\tquery = query.Where(fmt.Sprintf(\"%s = ?\", key), value)\n\t\x7d\n\terr := query.Find(&" ++ a5 ++
  ").Error\n\treturn " ++ a5 ++
  ", err\n\x7d\n\x60\x60\x60\n\n4. Bootstrap dependencies in \x60cmd/web/main.go\x60:\n" ++
  "   After creating models, repositories, services, and controllers, you will need to create or update \x60cmd/web/main.go\x60 to bootstrap these dependencies.\n" ++
  "   This typically involves:\n" ++
  "   - Importing \x60gorm.io/driver/sqlite\x60 (or your chosen database driver) and \x60gorm.io/gorm\x60.\n" ++
  "   - Initializing the database connection (e.g., \x60db, err := gorm.Open(sqlite.Open(\"gorm.db\"), &gorm.Config\x7b\x7d)\x60).\n" ++
  "   - Auto-migrating your models (e.g., \x60db.AutoMigrate(&models.YourModel\x7b\x7d)\x60).\n" ++
  "   - Creating instances of your repositories (e.g., \x60userRepo := repository.NewUserRepository(db)\x60).\n" ++
  "   - Creating instances of your services, injecting repositories (e.g., \x60userService := service.NewUserService(userRepo)\x60).\n" ++
  "   - Creating instances of your controllers, injecting services (e.g., \x60userController := controllers.NewUserController(userService)\x60).\n" ++
  "   - Registering routes for your controllers (e.g., \x60e.POST(\"/users\", userController.CreateUser)\x60).\n" ++
  "\n" ++
  "   **Important Note**: It is recommended to use a service layer between your controllers and repositories. Controllers should not communicate directly with repositories. Instead, controllers should use services, and services should use repositories. This promotes better separation of concerns and makes your code more maintainable.\n" ++
  "\n" ++
  "   Here\x27s an example of how \x60cmd/web/main.go\x60 might look after adding a \x27User\x27 model with service layer:\n" ++
  "   \x60\x60\x60go\npackage main\n\nimport (\n\t\"net/http\"\n\n\t\"github.com/labstack/echo/v4\"\n" ++
  "\t\"github.com/labstack/echo/v4/middleware\"\n\t\"gorm.io/driver/sqlite\"\n\t\"gorm.io/gorm\"\n\n" ++
  "\t\"" ++ a6 ++ "/internal/models\"\n\t\"" ++ a6 ++ "/internal/repository\"\n\t\"" ++ a6 ++
  "/internal/service\"\n\t\"" ++ a6 ++
  "/internal/controllers\"\n)\n\nfunc main() \x7b\n\te := echo.New()\n\te.Use(middleware.Logger())\n" ++
  "\te.Use(middleware.Recover())\n\n\t// Database initialization\n" ++
  "\tdb, err := gorm.Open(sqlite.Open(\"gorm.db\"), &gorm.Config\x7b\x7d)\n\tif err != nil \x7b\n" ++
  "\t\te.Logger.Fatal(\"failed to connect database\", err)\n\t\x7d\n\n\t// Auto-migrate models\n" ++
  "\terr = db.AutoMigrate(&models.User\x7b\x7d) // Add all your models here\n\tif err != nil \x7b\n" ++
  "\t\te.Logger.Fatal(\"failed to auto migrate models\", err)\n\t\x7d\n\n\t// Initialize repositories\n" ++
  "\tuserRepo := repository.NewUserRepository(db)\n\n\t// Initialize services\n" ++
  "\tuserService := service.NewUserService(userRepo)\n\n\t// Initialize controllers\n" ++
  "\tuserController := controllers.NewUserController(userService)\n\n\t// Routes\n" ++
  "\te.GET(\"/\", hello)\n\te.POST(\"/users\", userController.CreateUser)\n" ++
  "\te.GET(\"/users/:id\", userController.GetUserByID) // Example for GetByID\n" ++
  "\te.GET(\"/users\", userController.ListUsers)       // Example for List\n" ++
  "\te.PUT(\"/users/:id\", userController.UpdateUser)\n" ++
  "\te.DELETE(\"/users/:id\", userController.DeleteUser)\n\n\te.Logger.Fatal(e.Start(\":1323\"))\n" ++
  "\x7d\n\nfunc hello(c echo.Context) error \x7b\n\treturn c.String(http.StatusOK, \"Hello, World!\")\n" ++
  "\x7d\n\x60\x60\x60\n"

/-- Response template of ProduceApiControllerBoilerplateHandler (produce_api_controller_boilerplate.go). -/
def apiControllerResponse (p1 p2 p3 p4 p5 : String) : String :=
  "\n# API Controller Scaffold Instructions\n\nTo scaffold the API controller for model \x27" ++ p1 ++
  "\x27, please perform the following steps:\n\n" ++
  "1. Create the controller directory (or ensure it exists):\n   \x60mkdir -p internal/controllers/" ++ p2 ++
  "\x60\n\n2. For each of the following, create or update the file in \x60internal/controllers/" ++ p2 ++
  "/\x60 as needed:\n\n   a. \x60controller.go\x60 (interface and constructor):\n\x60\x60\x60go\n" ++
  "package controllers\n\nimport (\n\t\"github.com/labstack/echo/v4\"\n\t\"" ++ p5 ++
  "/internal/service\"\n\t\"" ++ p5 ++ "/internal/dto\"\n)\n\ntype " ++ p3 ++
  "Controller interface \x7b\n\tCreate" ++ p3 ++ "(c echo.Context) error\n\tUpdate" ++ p3 ++
  "(c echo.Context) error\n\tDelete" ++ p3 ++ "(c echo.Context) error\n\tList" ++ p3 ++
  "(c echo.Context) error // New: List method\n\tGet" ++ p3 ++
  "ByID(c echo.Context) error // New: GetByID method\n\x7d\n\ntype " ++ p3 ++ "ControllerImpl struct \x7b\n\t" ++
  p4 ++ "Service service." ++ p3 ++ "Service\n\x7d\n\nfunc New" ++ p3 ++ "Controller(" ++ p4 ++
  "Service service." ++ p3 ++ "Service) " ++ p3 ++ "Controller \x7b\n\treturn &" ++ p3 ++ "ControllerImpl\x7b" ++
  p4 ++ "Service: " ++ p4 ++ "Service\x7d\n\x7d\n\x60\x60\x60\n\n" ++
  "   b. \x60create.go\x60 (Create method - JSON request & response):\n\x60\x60\x60go\n" ++
  "package controllers\n\nimport (\n\t\"net/http\"\n\n\t\"github.com/labstack/echo/v4\"\n\t\"" ++ p5 ++
  "/internal/dto\"\n)\n\nfunc (ctrl *" ++ p3 ++ "ControllerImpl) Create" ++ p3 ++
  "(c echo.Context) error \x7b\n\treq := new(dto.Create" ++ p3 ++
  "Request)\n\tif err := c.Bind(req); err != nil \x7b\n" ++
  "\t\treturn echo.NewHTTPError(http.StatusBadRequest, err.Error())\n\t\x7d\n" ++
  "\t// Add validation here if needed\n\tresult, err := ctrl." ++ p4 ++
  "Service.Create(c.Request().Context(), req)\n\tif err != nil \x7b\n" ++
  "\t\treturn echo.NewHTTPError(http.StatusInternalServerError, err.Error())\n\t\x7d\n" ++
  "\treturn c.JSON(http.StatusCreated, result)\n\x7d\n\x60\x60\x60\n\n" ++
  "   c. \x60update.go\x60 (Update method - JSON request & response):\n\x60\x60\x60go\n" ++
  "package controllers\n\nimport (\n\t\"net/http\"\n\t\"strconv\"\n\n" ++
  "\t\"github.com/labstack/echo/v4\"\n\t\"" ++ p5 ++ "/internal/dto\"\n)\n\nfunc (ctrl *" ++ p3 ++
  "ControllerImpl) Update" ++ p3 ++
  "(c echo.Context) error \x7b\n\tid, err := strconv.ParseUint(c.Param(\"id\"), 10, 64)\n" ++
  "\tif err != nil \x7b\n\t\treturn echo.NewHTTPError(http.StatusBadRequest, \"Invalid ID\")\n\t\x7d\n" ++
  "\n\treq := new(dto.Update" ++ p3 ++ "Request)\n\tif err := c.Bind(req); err != nil \x7b\n" ++
  "\t\treturn echo.NewHTTPError(http.StatusBadRequest, err.Error())\n\t\x7d\n\treq.ID = uint(id)\n\n" ++
  "\t// Add validation here if needed\n\tresult, err := ctrl." ++ p4 ++
  "Service.Update(c.Request().Context(), req)\n\tif err != nil \x7b\n" ++
  "\t\treturn echo.NewHTTPError(http.StatusInternalServerError, err.Error())\n\t\x7d\n" ++
  "\treturn c.JSON(http.StatusOK, result)\n\x7d\n\x60\x60\x60\n\n" ++
  "   d. \x60delete.go\x60 (Delete method - JSON request & response):\n\x60\x60\x60go\n" ++
  "package controllers\n\nimport (\n\t\"net/http\"\n\t\"strconv\"\n\n" ++
  "\t\"github.com/labstack/echo/v4\"\n)\n\nfunc (ctrl *" ++ p3 ++ "ControllerImpl) Delete" ++ p3 ++
  "(c echo.Context) error \x7b\n\tid, err := strconv.ParseUint(c.Param(\"id\"), 10, 64)\n" ++
  "\tif err != nil \x7b\n\t\treturn echo.NewHTTPError(http.StatusBadRequest, \"Invalid ID\")\n\t\x7d\n" ++
  "\tif err := ctrl." ++ p4 ++ "Service.Delete(c.Request().Context(), uint(id)); err != nil \x7b\n" ++
  "\t\treturn echo.NewHTTPError(http.StatusInternalServerError, err.Error())\n\t\x7d\n" ++
  "\treturn c.NoContent(http.StatusNoContent)\n\x7d\n\x60\x60\x60\n\n" ++
  "   e. \x60list.go\x60 (List method - JSON request & response):\n\x60\x60\x60go\n" ++
  "package controllers\n\nimport (\n\t\"net/http\"\n\t\"strconv\"\n\n" ++
  "\t\"github.com/labstack/echo/v4\"\n)\n\nfunc (ctrl *" ++ p3 ++ "ControllerImpl) List" ++ p3 ++
  "(c echo.Context) error \x7b\n\t// Parse pagination parameters\n" ++
  "\tpage, _ := strconv.Atoi(c.QueryParam(\"page\"))\n\tif page <= 0 \x7b\n\t\tpage = 1\n\t\x7d\n" ++
  "\tlimit, _ := strconv.Atoi(c.QueryParam(\"limit\"))\n\tif limit <= 0 \x7b\n\t\tlimit = 10\n\t\x7d\n" ++
  "\n\t// You might want to parse query parameters for filtering here\n" ++
  "\tfilters := make(map[string]interface\x7b\x7d) \n" ++
  "\t// Example: filters[\"name\"] = c.QueryParam(\"name\")\n\n\tresult, err := ctrl." ++ p4 ++
  "Service.List(c.Request().Context(), page, limit, filters)\n\tif err != nil \x7b\n" ++
  "\t\treturn echo.NewHTTPError(http.StatusInternalServerError, err.Error())\n\t\x7d\n" ++
  "\treturn c.JSON(http.StatusOK, result)\n\x7d\n\x60\x60\x60\n\n" ++
  "   f. \x60get_by_id.go\x60 (GetByID method - JSON request & response):\n\x60\x60\x60go\n" ++
  "package controllers\n\nimport (\n\t\"net/http\"\n\t\"strconv\"\n\n" ++
  "\t\"github.com/labstack/echo/v4\"\n)\n\nfunc (ctrl *" ++ p3 ++ "ControllerImpl) Get" ++ p3 ++
  "ByID(c echo.Context) error \x7b\n\tid, err := strconv.ParseUint(c.Param(\"id\"), 10, 64)\n" ++
  "\tif err != nil \x7b\n\t\treturn echo.NewHTTPError(http.StatusBadRequest, \"Invalid ID\")\n\t\x7d\n" ++
  "\n\tresult, err := ctrl." ++ p4 ++
  "Service.GetByID(c.Request().Context(), uint(id))\n\tif err != nil \x7b\n" ++
  "\t\treturn echo.NewHTTPError(http.StatusInternalServerError, err.Error())\n\t\x7d\n" ++
  "\treturn c.JSON(http.StatusOK, result)\n\x7d\n\x60\x60\x60\n"

/-- Response template of ProduceServiceBoilerplateHandler (produce_api_controller_boilerplate.go). -/
def serviceBoilerplateResponse (p1 p2 p3 : String) : String :=
  "# Service Layer and DTOs Scaffold Instructions\n\n## Understanding DTOs (Data Transfer Objects)\n\n" ++
  "**What are DTOs?**\n" ++
  "DTOs (Data Transfer Objects) are objects that carry data between processes or layers in your application. In the context of a web API:\n" ++
  "- They define the structure of data sent to and received from your API endpoints\n" ++
  "- They separate your internal domain models from your external API contract\n" ++
  "- They allow you to control exactly what data is exposed to clients\n\n**When to use DTOs:**\n" ++
  "- When your internal model structure differs from what you want to expose in your API\n" ++
  "- When you need to validate or transform data before it reaches your domain model\n" ++
  "- When you want to version your API without changing your domain models\n" ++
  "- When you need to combine data from multiple models into a single response\n\n" ++
  "**Benefits of using DTOs:**\n" ++
  "- Decoupling: Changes to your domain models don\x27t necessarily break your API contract\n" ++
  "- Security: You can exclude sensitive fields from responses\n" ++
  "- Flexibility: You can shape responses differently for different endpoints\n" ++
  "- Validation: You can add validation rules specific to API requests\n\n" ++
  "**Should you create a DTO package?**\n- **Yes, create a DTO package if:**\n" ++
  "  - Your API is public-facing or used by multiple clients\n" ++
  "  - Your models contain sensitive fields that shouldn\x27t be exposed\n" ++
  "  - Your API request/response structure needs to differ from your database models\n" ++
  "  - You need to validate API inputs separately from model validation\n" ++
  "  - You\x27re building a medium to large application where maintainability is important\n\n" ++
  "- **You might not need a DTO package if:**\n" ++
  "  - You\x27re building a simple prototype or proof-of-concept\n" ++
  "  - Your application is very small with minimal API endpoints\n" ++
  "  - Your models map directly to your API with no sensitive fields\n" ++
  "  - You\x27re the only consumer of your API and don\x27t need a strict contract\n\n" ++
  "For this scaffolding, we\x27ll create a dedicated \x27dto\x27 package to contain all your DTOs, organized by model/domain. This follows best practices for separation of concerns and maintainability in medium to large applications.\n" ++
  "\nTo scaffold the service layer with DTOs for model \x27" ++ p1 ++
  "\x27, please perform the following steps:\n\n1. Create the DTOs directory (or ensure it exists):\n" ++
  "   mkdir -p internal/dto/" ++ p2 ++ "\n\n2. Create or update the file at internal/dto/" ++ p2 ++
  "/dto.go with the following content:\n\npackage dto\n\nimport \"time\"\n\n// Create" ++ p1 ++
  "Request represents the request payload for creating a " ++ p2 ++ "\ntype Create" ++ p1 ++
  "Request struct \x7b\n\t// Add your fields here based on your model\n" ++
  "\t// Example fields - replace with actual model fields:\n" ++
  "\t// Name        string \x60json:\"name\" validate:\"required\"\x60\n" ++
  "\t// Email       string \x60json:\"email\" validate:\"required,email\"\x60\n" ++
  "\t// Description string \x60json:\"description\"\x60\n\x7d\n\n// Update" ++ p1 ++
  "Request represents the request payload for updating a " ++ p2 ++ "\ntype Update" ++ p1 ++
  "Request struct \x7b\n\tID uint \x60json:\"id\" validate:\"required\"\x60\n" ++
  "\t// Add your fields here based on your model\n" ++
  "\t// Example fields - replace with actual model fields:\n" ++
  "\t// Name        *string \x60json:\"name,omitempty\"\x60\n" ++
  "\t// Email       *string \x60json:\"email,omitempty\"\x60\n" ++
  "\t// Description *string \x60json:\"description,omitempty\"\x60\n\x7d\n\n// " ++ p1 ++
  "Response represents the response payload for " ++ p2 ++ " operations\ntype " ++ p1 ++
  "Response struct \x7b\n\tID        uint      \x60json:\"id\"\x60\n" ++
  "\tCreatedAt time.Time \x60json:\"created_at\"\x60\n" ++
  "\tUpdatedAt time.Time \x60json:\"updated_at\"\x60\n\t// Add your fields here based on your model\n" ++
  "\t// Example fields - replace with actual model fields:\n" ++
  "\t// Name        string \x60json:\"name\"\x60\n\t// Email       string \x60json:\"email\"\x60\n" ++
  "\t// Description string \x60json:\"description\"\x60\n\x7d\n\n// List" ++ p1 ++
  "Response represents the response payload for listing " ++ p2 ++ "\ntype List" ++ p1 ++
  "Response struct \x7b\n\tData  []" ++ p1 ++
  "Response \x60json:\"data\"\x60\n\tTotal int          \x60json:\"total\"\x60\n" ++
  "\tPage  int          \x60json:\"page\"\x60\n\tLimit int          \x60json:\"limit\"\x60\n\x7d\n\n" ++
  "3. Create the service directory (or ensure it exists):\n   mkdir -p internal/service/" ++ p2 ++
  "\n\n4. Create the service files:\n\n   a. internal/service/" ++ p2 ++
  "/service.go (interface and constructor):\n\npackage service\n\nimport (\n\t\"context\"\n\t\"" ++ p3 ++
  "/internal/dto\"\n\t\"" ++ p3 ++ "/internal/models\"\n\t\"" ++ p3 ++ "/internal/repository\"\n)\n\ntype " ++
  p1 ++ "Service interface \x7b\n\tCreate(ctx context.Context, req *dto.Create" ++ p1 ++ "Request) (*dto." ++
  p1 ++ "Response, error)\n\tUpdate(ctx context.Context, req *dto.Update" ++ p1 ++ "Request) (*dto." ++ p1 ++
  "Response, error)\n\tDelete(ctx context.Context, id uint) error\n" ++
  "\tGetByID(ctx context.Context, id uint) (*dto." ++ p1 ++ "Response, error)\n" ++
  "\tList(ctx context.Context, page, limit int, filters map[string]interface\x7b\x7d) (*dto.List" ++ p1 ++
  "Response, error)\n\x7d\n\ntype " ++ p1 ++ "ServiceImpl struct \x7b\n\t" ++ p2 ++ "Repo repository." ++ p1 ++
  "Repository\n\x7d\n\nfunc New" ++ p1 ++ "Service(" ++ p2 ++ "Repo repository." ++ p1 ++ "Repository) " ++ p1 ++
  "Service \x7b\n\treturn &" ++ p1 ++ "ServiceImpl\x7b" ++ p2 ++ "Repo: " ++ p2 ++
  "Repo\x7d\n\x7d\n\n// Helper function to convert model to DTO\nfunc (s *" ++ p1 ++
  "ServiceImpl) modelToDTO(model *models." ++ p1 ++ ") *dto." ++ p1 ++ "Response \x7b\n\treturn &dto." ++ p1 ++
  "Response\x7b\n\t\tID:        model.ID,\n\t\tCreatedAt: model.CreatedAt,\n" ++
  "\t\tUpdatedAt: model.UpdatedAt,\n\t\t// Map your model fields to DTO fields here\n\t\t// Example:\n" ++
  "\t\t// Name:        model.Name,\n\t\t// Email:       model.Email,\n" ++
  "\t\t// Description: model.Description,\n\t\x7d\n\x7d\n\n" ++
  "// Helper function to convert create DTO to model\nfunc (s *" ++ p1 ++
  "ServiceImpl) createDTOToModel(req *dto.Create" ++ p1 ++ "Request) *models." ++ p1 ++
  " \x7b\n\treturn &models." ++ p1 ++
  "\x7b\n\t\t// Map your DTO fields to model fields here\n\t\t// Example:\n" ++
  "\t\t// Name:        req.Name,\n\t\t// Email:       req.Email,\n" ++
  "\t\t// Description: req.Description,\n\t\x7d\n\x7d\n\n   b. internal/service/" ++ p2 ++
  "/create.go (Create method):\n\npackage service\n\nimport (\n\t\"context\"\n\t\"" ++ p3 ++
  "/internal/dto\"\n)\n\nfunc (s *" ++ p1 ++ "ServiceImpl) Create(ctx context.Context, req *dto.Create" ++ p1 ++
  "Request) (*dto." ++ p1 ++
  "Response, error) \x7b\n\t// Convert DTO to model\n\tmodel := s.createDTOToModel(req)\n\n" ++
  "\t// Create in repository\n\tif err := s." ++ p2 ++
  "Repo.Create(ctx, model); err != nil \x7b\n\t\treturn nil, err\n\t\x7d\n\n" ++
  "\t// Convert model back to DTO and return\n\treturn s.modelToDTO(model), nil\n\x7d\n\n" ++
  "   c. internal/service/" ++ p2 ++
  "/update.go (Update method):\n\npackage service\n\nimport (\n\t\"context\"\n\t\"errors\"\n\t\"" ++ p3 ++
  "/internal/dto\"\n)\n\nfunc (s *" ++ p1 ++ "ServiceImpl) Update(ctx context.Context, req *dto.Update" ++ p1 ++
  "Request) (*dto." ++ p1 ++ "Response, error) \x7b\n\t// First, get the existing record\n" ++
  "\tfilters := map[string]interface\x7b\x7d\x7b\"id\": req.ID\x7d\n\texisting, err := s." ++ p2 ++
  "Repo.Get(ctx, filters)\n\tif err != nil \x7b\n\t\treturn nil, err\n\t\x7d\n" ++
  "\tif len(existing) == 0 \x7b\n\t\treturn nil, errors.New(\"" ++ p2 ++
  " not found\")\n\t\x7d\n\n\tmodel := &existing[0]\n" ++
  "\t// Update only the fields that are provided (not nil)\n\t// Example:\n" ++
  "\t// if req.Name != nil \x7b\n\t//     model.Name = *req.Name\n\t// \x7d\n" ++
  "\t// if req.Email != nil \x7b\n\t//     model.Email = *req.Email\n\t// \x7d\n" ++
  "\t// if req.Description != nil \x7b\n\t//     model.Description = *req.Description\n\t// \x7d\n\n" ++
  "\t// Update in repository\n\tif err := s." ++ p2 ++
  "Repo.Update(ctx, model); err != nil \x7b\n\t\treturn nil, err\n\t\x7d\n\n" ++
  "\t// Convert model back to DTO and return\n\treturn s.modelToDTO(model), nil\n\x7d\n\n" ++
  "   d. internal/service/" ++ p2 ++
  "/delete.go (Delete method):\n\npackage service\n\nimport \"context\"\n\nfunc (s *" ++ p1 ++
  "ServiceImpl) Delete(ctx context.Context, id uint) error \x7b\n\treturn s." ++ p2 ++
  "Repo.Delete(ctx, id)\n\x7d\n\n   e. internal/service/" ++ p2 ++
  "/get_by_id.go (GetByID method):\n\npackage service\n\nimport (\n\t\"context\"\n\t\"errors\"\n\t\"" ++ p3 ++
  "/internal/dto\"\n)\n\nfunc (s *" ++ p1 ++ "ServiceImpl) GetByID(ctx context.Context, id uint) (*dto." ++ p1 ++
  "Response, error) \x7b\n\tfilters := map[string]interface\x7b\x7d\x7b\"id\": id\x7d\n" ++
  "\tresults, err := s." ++ p2 ++
  "Repo.Get(ctx, filters)\n\tif err != nil \x7b\n\t\treturn nil, err\n\t\x7d\n" ++
  "\tif len(results) == 0 \x7b\n\t\treturn nil, errors.New(\"" ++ p2 ++
  " not found\")\n\t\x7d\n\n\treturn s.modelToDTO(&results[0]), nil\n\x7d\n\n   f. internal/service/" ++ p2 ++
  "/list.go (List method):\n\npackage service\n\nimport (\n\t\"context\"\n\t\"" ++ p3 ++
  "/internal/dto\"\n)\n\nfunc (s *" ++ p1 ++
  "ServiceImpl) List(ctx context.Context, page, limit int, filters map[string]interface\x7b\x7d) (*dto.List" ++
  p1 ++ "Response, error) \x7b\n\t// Get data from repository\n\tresults, err := s." ++ p2 ++
  "Repo.Get(ctx, filters)\n\tif err != nil \x7b\n\t\treturn nil, err\n\t\x7d\n\n" ++
  "\t// Convert models to DTOs\n\tdtoResults := make([]dto." ++ p1 ++
  "Response, len(results))\n\tfor i, model := range results \x7b\n" ++
  "\t\tdtoResults[i] = *s.modelToDTO(&model)\n\t\x7d\n\n" ++
  "\t// TODO: Implement proper pagination in repository layer\n\t// For now, return all results\n" ++
  "\treturn &dto.List" ++ p1 ++
  "Response\x7b\n\t\tData:  dtoResults,\n\t\tTotal: len(dtoResults),\n\t\tPage:  page,\n" ++
  "\t\tLimit: limit,\n\t\x7d, nil\n\x7d\n\n" ++
  "5. Update your controller to use the service layer instead of repository directly.\n" ++
  "   The controller should now inject the service and use DTOs for request/response.\n\n" ++
  "6. Bootstrap dependencies in cmd/web/main.go:\n" ++
  "   After creating services, you will need to update cmd/web/main.go to bootstrap the service layer.\n" ++
  "   This typically involves:\n" ++
  "   - Creating instances of your repositories (e.g., userRepo := repository.NewUserRepository(db)).\n" ++
  "   - Creating instances of your services, injecting repositories (e.g., userService := service.NewUserService(userRepo)).\n" ++
  "   - Creating instances of your controllers, injecting services (e.g., userController := controllers.NewUserController(userService)).\n" ++
  "\n   Here\x27s an example of how cmd/web/main.go might look with the service layer:\n\n" ++
  "package main\n\nimport (\n\t\"net/http\"\n\n\t\"github.com/labstack/echo/v4\"\n" ++
  "\t\"github.com/labstack/echo/v4/middleware\"\n\t\"gorm.io/driver/sqlite\"\n\t\"gorm.io/gorm\"\n\n" ++
  "\t\"" ++ p3 ++ "/internal/models\"\n\t\"" ++ p3 ++ "/internal/repository\"\n\t\"" ++ p3 ++
  "/internal/service\"\n\t\"" ++ p3 ++
  "/internal/controllers\"\n)\n\nfunc main() \x7b\n\te := echo.New()\n\te.Use(middleware.Logger())\n" ++
  "\te.Use(middleware.Recover())\n\n\t// Database initialization\n" ++
  "\tdb, err := gorm.Open(sqlite.Open(\"gorm.db\"), &gorm.Config\x7b\x7d)\n\tif err != nil \x7b\n" ++
  "\t\te.Logger.Fatal(\"failed to connect database\", err)\n\t\x7d\n\n\t// Auto-migrate models\n" ++
  "\terr = db.AutoMigrate(&models." ++ p1 ++ "\x7b\x7d) // Add all your models here\n\tif err != nil \x7b\n" ++
  "\t\te.Logger.Fatal(\"failed to auto migrate models\", err)\n\t\x7d\n\n\t// Initialize repositories\n" ++
  "\t" ++ p2 ++ "Repo := repository.New" ++ p1 ++ "Repository(db)\n\n\t// Initialize services\n\t" ++ p2 ++
  "Service := service.New" ++ p1 ++ "Service(" ++ p2 ++ "Repo)\n\n\t// Initialize controllers\n\t" ++ p2 ++
  "Controller := controllers.New" ++ p1 ++ "Controller(" ++ p2 ++
  "Service)\n\n\t// Routes\n\te.GET(\"/\", hello)\n\te.POST(\"/" ++ p2 ++ "s\", " ++ p2 ++ "Controller.Create" ++
  p1 ++ ")\n\te.GET(\"/" ++ p2 ++ "s/:id\", " ++ p2 ++ "Controller.Get" ++ p1 ++ "ByID)\n\te.GET(\"/" ++ p2 ++
  "s\", " ++ p2 ++ "Controller.List" ++ p1 ++ ")\n\te.PUT(\"/" ++ p2 ++ "s/:id\", " ++ p2 ++
  "Controller.Update" ++ p1 ++ ")\n\te.DELETE(\"/" ++ p2 ++ "s/:id\", " ++ p2 ++ "Controller.Delete" ++ p1 ++
  ")\n\n\te.Logger.Fatal(e.Start(\":1323\"))\n\x7d\n\nfunc hello(c echo.Context) error \x7b\n" ++
  "\treturn c.String(http.StatusOK, \"Hello, World!\")\n\x7d\n"

/-- Response template of ProduceAppBoilerplateHandler (produce_app_boilerplate.go); all six arguments are the app name. -/
def appBoilerplateResponse (p1 p2 p3 p4 p5 p6 : String) : String :=
  "\n# Echo Web Application Scaffold Instructions\n\nTo scaffold the Echo web application \x27" ++ p1 ++
  "\x27, please perform the following steps:\n\n" ++
  "1. Create the directory structure (or ensure it exists):\n   \x60mkdir -p " ++ p1 ++
  "/cmd/web\x60\n\n2. Create or update the file at \x60" ++ p1 ++
  "/cmd/web/main.go\x60 with the following content:\n\x60\x60\x60go\npackage main\n\nimport (\n" ++
  "\t\"net/http\"\n\n\t\"github.com/labstack/echo/v4\"\n\t\"github.com/labstack/echo/v4/middleware\"\n" ++
  ")\n\nfunc main() \x7b\n\te := echo.New()\n\te.Use(middleware.Logger())\n" ++
  "\te.Use(middleware.Recover())\n\te.GET(\"/\", hello)\n\te.Logger.Fatal(e.Start(\":1323\"))\n\x7d\n\n" ++
  "func hello(c echo.Context) error \x7b\n\treturn c.String(http.StatusOK, \"Hello, World!\")\n\x7d\n" ++
  "\x60\x60\x60\n\n3. Initialize the Go module and fetch dependencies:\n   \x60cd " ++ p1 ++
  " && go mod init " ++ p1 ++ " && go get github.com/labstack/echo/v4 && go mod tidy\x60\n\n" ++
  "4. To run the server, navigate to the application directory and execute:\n   \x60cd " ++ p1 ++
  " && go run ./cmd/web\x60\n\n5. Bootstrap dependencies in \x60" ++ p1 ++ "/cmd/web/main.go\x60:\n" ++
  "   After creating models, repositories, services, and controllers, you will need to create or update \x60" ++
  p1 ++ "/cmd/web/main.go\x60 to bootstrap these dependencies.\n   This typically involves:\n" ++
  "   - Importing \x60gorm.io/driver/sqlite\x60 (or your chosen database driver) and \x60gorm.io/gorm\x60.\n" ++
  "   - Initializing the database connection (e.g., \x60db, err := gorm.Open(sqlite.Open(\"gorm.db\"), &gorm.Config\x7b\x7d)\x60).\n" ++
  "   - Auto-migrating your models (e.g., \x60db.AutoMigrate(&models.YourModel\x7b\x7d)\x60).\n" ++
  "   - Creating instances of your repositories (e.g., \x60userRepo := repository.NewUserRepository(db)\x60).\n" ++
  "   - Creating instances of your services (e.g., \x60userService := service.NewUserService(userRepo)\x60).\n" ++
  "   - Creating instances of your controllers, injecting services (e.g., \x60userController := controllers.NewUserController(userService)\x60).\n" ++
  "   - Registering routes for your controllers (e.g., \x60e.POST(\"/users\", userController.CreateUser)\x60).\n" ++
  "\n   Here\x27s an example of how \x60" ++ p1 ++
  "/cmd/web/main.go\x60 might look after adding a \x27User\x27 model with service layer:\n" ++
  "   \x60\x60\x60go\npackage main\n\nimport (\n\t\"net/http\"\n\n\t\"github.com/labstack/echo/v4\"\n" ++
  "\t\"github.com/labstack/echo/v4/middleware\"\n\t\"gorm.io/driver/sqlite\"\n\t\"gorm.io/gorm\"\n\n" ++
  "\t\"" ++ p6 ++ "/internal/models\"\n\t\"" ++ p6 ++ "/internal/repository\"\n\t\"" ++ p6 ++
  "/internal/service\"\n\t\"" ++ p6 ++
  "/internal/controllers\"\n)\n\nfunc main() \x7b\n\te := echo.New()\n\te.Use(middleware.Logger())\n" ++
  "\te.Use(middleware.Recover())\n\n\t// Database initialization\n" ++
  "\tdb, err := gorm.Open(sqlite.Open(\"gorm.db\"), &gorm.Config\x7b\x7d)\n\tif err != nil \x7b\n" ++
  "\t\te.Logger.Fatal(\"failed to connect database\", err)\n\t\x7d\n\n\t// Auto-migrate models\n" ++
  "\terr = db.AutoMigrate(&models.User\x7b\x7d) // Add all your models here\n\tif err != nil \x7b\n" ++
  "\t\te.Logger.Fatal(\"failed to auto migrate models\", err)\n\t\x7d\n\n\t// Initialize repositories\n" ++
  "\tuserRepo := repository.NewUserRepository(db)\n\n\t// Initialize services\n" ++
  "\tuserService := service.NewUserService(userRepo)\n\n\t// Initialize controllers\n" ++
  "\tuserController := controllers.NewUserController(userService)\n\n\t// Routes\n" ++
  "\te.GET(\"/\", hello)\n\te.POST(\"/users\", userController.CreateUser)\n" ++
  "\te.GET(\"/users/:id\", userController.GetUserByID) // Example for GetByID\n" ++
  "\te.GET(\"/users\", userController.ListUsers)       // Example for List\n" ++
  "\te.PUT(\"/users/:id\", userController.UpdateUser)\n" ++
  "\te.DELETE(\"/users/:id\", userController.DeleteUser)\n\n\te.Logger.Fatal(e.Start(\":1323\"))\n" ++
  "\x7d\n\nfunc hello(c echo.Context) error \x7b\n\treturn c.String(http.StatusOK, \"Hello, World!\")\n" ++
  "\x7d\n\x60\x60\x60\n"

/-- Response template of ProduceHtmlControllerBoilerplateHandler (produce_app_boilerplate.go). The four bare %d verbs in the source template consume string arguments, which Go fmt renders as a percent-bang-d(string=...) insertion; that rendering is reproduced here. -/
def htmlControllerResponse (p1 p2 p3 p4 p5 : String) : String :=
  "\n# HTML Controller Scaffold Instructions using templUI\n\n" ++
  "To scaffold the HTML controller for model \x27" ++ p1 ++
  "\x27 using templUI, please perform the following steps:\n\n## Prerequisites\n\n" ++
  "1. Install the templUI CLI and templ:\n" ++
  "   \x60go install github.com/axzilla/templui/cmd/templui@latest\x60\n" ++
  "   \x60go install github.com/a-h/templ/cmd/templ@latest\x60\n\n2. Install Tailwind CSS (on Mac):\n" ++
  "   \x60brew install tailwindcss\x60\n\n## Base Configuration\n\n" ++
  "1. Create the CSS configuration file and base styles:\n   \x60mkdir -p assets/css\x60\n" ++
  "   Create \x60assets/css/input.css\x60 with the following content:\n\n\x60\x60\x60css\n" ++
  "@import \x27tailwindcss\x27;\n\n@custom-variant dark (&:where(.dark, .dark *));\n\n" ++
  "@theme inline \x7b\n  --color-border: var(--border);\n  --color-input: var(--input);\n" ++
  "  --color-background: var(--background);\n  --color-foreground: var(--foreground);\n" ++
  "  --color-primary: var(--primary);\n  --color-primary-foreground: var(--primary-foreground);\n" ++
  "  --color-secondary: var(--secondary);\n" ++
  "  --color-secondary-foreground: var(--secondary-foreground);\n" ++
  "  --color-destructive: var(--destructive);\n" ++
  "  --color-destructive-foreground: var(--destructive-foreground);\n  --color-muted: var(--muted);\n" ++
  "  --color-muted-foreground: var(--muted-foreground);\n  --color-accent: var(--accent);\n" ++
  "  --color-accent-foreground: var(---accent-foreground);\n  --color-popover: var(--popover);\n" ++
  "  --color-popover-foreground: var(--popover-foreground);\n  --color-card: var(--card);\n" ++
  "  --color-card-foreground: var(--card-foreground);\n  --color-ring: var(--ring);\n\n" ++
  "  --radius-sm: calc(var(--radius) - 4px);\n  --radius-md: calc(var(--radius) - 2px);\n" ++
  "  --radius-lg: var(--radius);\n\n  --container-2xl: 1400px;\n\x7d\n\n:root \x7b\n" ++
  "  --background: hsl(0 0% 100%);\n  --foreground: hsl(240 10% 3.9%);\n" ++
  "  --muted: hsl(240 4.8% 95.9%);\n  --muted-foreground: hsl(240 3.8% 46.1%);\n" ++
  "  --popover: hsl(0 0% 100%);\n  --popover-foreground: hsl(240 10% 3.9%);\n" ++
  "  --card: hsl(0 0% 100%);\n  --card-foreground: hsl(240 10% 3.9%);\n  --border: hsl(240 5.9% 90%);\n" ++
  "  --input: hsl(240 5.9% 90%);\n  --primary: hsl(240 5.9% 10%);\n" ++
  "  --primary-foreground: hsl(0 0% 98%);\n  --secondary: hsl(240 4.8% 95.9%);\n" ++
  "  --secondary-foreground: hsl(240 5.9% 10%);\n  --accent: hsl(240 4.8% 95.9%);\n" ++
  "  --accent-foreground: hsl(240 5.9% 10%);\n  --destructive: hsl(0 84.2% 60.2%);\n" ++
  "  --destructive-foreground: hsl(0 0% 98%);\n  --ring: hsl(240 5.9% 10%);\n  --radius: 0.5rem;\n" ++
  "\x7d\n\n.dark \x7b\n  --background: hsl(240 10% 3.9%);\n  --foreground: hsl(0 0% 98%);\n" ++
  "  --muted: hsl(240 3.7% 15.9%);\n  --muted-foreground: hsl(240 5% 64.9%);\n" ++
  "  --popover: hsl(240 10% 3.9%);\n  --popover-foreground: hsl(0 0% 98%);\n" ++
  "  --card: hsl(240 10% 3.9%);\n  --card-foreground: hsl(0 0% 98%);\n" ++
  "  --border: hsl(240 3.7% 15.9%);\n  --input: hsl(240 3.7% 15.9%);\n  --primary: hsl(0 0% 98%);\n" ++
  "  --primary-foreground: hsl(240 5.9% 10%);\n  --secondary: hsl(240 3.7% 15.9%);\n" ++
  "  --secondary-foreground: hsl(0 0% 98%);\n  --accent: hsl(240 3.7% 15.9%);\n" ++
  "  --accent-foreground: hsl(0 0% 98%);\n  --destructive: hsl(0 62.8% 30.6%);\n" ++
  "  --destructive-foreground: hsl(0 0% 98%);\n  --ring: hsl(240 4.9% 83.9%);\n  --radius: 0.5rem;\n" ++
  "\x7d\n\n@layer base \x7b\n  * \x7b\n    @apply border-border;\n  \x7d\n\n  body \x7b\n" ++
  "    @apply bg-background text-foreground;\n    font-feature-settings:\n      \"rlig\" 1,\n" ++
  "      \"calt\" 1;\n  \x7d\n\x7d\n\x60\x60\x60\n\n2. Create a Makefile for development tools:\n" ++
  "   Create \x60Makefile\x60 in your project root with the following content:\n\n" ++
  "\x60\x60\x60makefile\n# Run templ generation in watch mode\ntempl:\n" ++
  "    templ generate --watch --proxy=\"http://localhost:8090\" --open-browser=false\n\n" ++
  "# Run air for Go hot reload\nserver:\n    air \\\n" ++
  "    --build.cmd \"go build -o tmp/bin/main ./cmd/web/main.go\" \\\n" ++
  "    --build.bin \"tmp/bin/main\" \\\n    --build.delay \"100\" \\\n" ++
  "    --build.exclude_dir \"node_modules\" \\\n    --build.include_ext \"go\" \\\n" ++
  "    --build.stop_on_error \"false\" \\\n    --misc.clean_on_exit true\n\n" ++
  "# Watch Tailwind CSS changes\ntailwind:\n" ++
  "    tailwindcss -i ./assets/css/input.css -o ./assets/css/output.css --watch\n\n" ++
  "# Start development server with all watchers\ndev:\n    make -j3 tailwind templ server\n" ++
  "\x60\x60\x60\n\n3. Initialize templUI in your project:\n   \x60templui init\x60\n\n" ++
  "4. Add required components:\n   \x60templui add button card alert checkbox input\x60\n\n" ++
  "## Create HTML Controller Structure\n\n1. Create the directory structure:\n" ++
  "   \x60mkdir -p ui/layouts ui/modules ui/pages/" ++ p2 ++ "\x60\n\n2. Create the base layout:\n" ++
  "   Create \x60ui/layouts/base.templ\x60 with the following content:\n\n\x60\x60\x60go\n" ++
  "package layouts\n\nimport (\n\t\"" ++ p5 ++ "/modules\"\n)\n\ntempl ThemeSwitcherScript() \x7b\n" ++
  "\t\x7b\x7b handle := templ.NewOnceHandle() \x7d\x7d\n\t@handle.Once() \x7b\n" ++
  "\t\t<script nonce=\x7b templ.GetNonce(ctx) \x7d>\n\t\t\t// Initial theme setup\n" ++
  "\t\t\tdocument.documentElement.classList.toggle(\x27dark\x27, localStorage.getItem(\x27appTheme\x27) === \x27dark\x27);\n" ++
  "\n\t\t\tdocument.addEventListener(\x27alpine:init\x27, () => \x7b\n" ++
  "\t\t\t\tAlpine.data(\x27themeHandler\x27, () => (\x7b\n" ++
  "\t\t\t\t\tisDark: localStorage.getItem(\x27appTheme\x27) === \x27dark\x27,\n" ++
  "\t\t\t\t\tthemeClasses() \x7b\n" ++
  "\t\t\t\t\t\treturn this.isDark ? \x27text-white\x27 : \x27bg-white text-black\x27\n\t\t\t\t\t\x7d,\n" ++
  "\t\t\t\t\ttoggleTheme() \x7b\n\t\t\t\t\t\tthis.isDark = !this.isDark;\n" ++
  "\t\t\t\t\t\tlocalStorage.setItem(\x27appTheme\x27, this.isDark ? \x27dark\x27 : \x27light\x27);\n" ++
  "\t\t\t\t\t\tdocument.documentElement.classList.toggle(\x27dark\x27, this.isDark);\n\t\t\t\t\t\x7d\n" ++
  "\t\t\t\t\x7d))\n\t\t\t\x7d)\n\t\t</script>\n\t\x7d\n\x7d\n\ntempl BaseLayout() \x7b\n" ++
  "\t<!DOCTYPE html>\n\t<html lang=\"en\" class=\"h-full dark\">\n\t\t<head>\n" ++
  "\t\t\t<meta charset=\"UTF-8\"/>\n" ++
  "\t\t\t<meta name=\"viewport\" content=\"width=device-width, initial-scale=1.0\"/>\n" ++
  "\t\t\t<!-- Tailwind CSS (output) -->\n" ++
  "\t\t\t<link href=\"/assets/css/output.css\" rel=\"stylesheet\"/>\n\t\t\t<!-- Alpine.js -->\n" ++
  "\t\t\t<script defer src=\"https://cdn.jsdelivr.net/npm/alpinejs@3.x.x/dist/cdn.min.js\"></script>\n" ++
  "\t\t\t<!-- Theme switcher script -->\n\t\t\t@ThemeSwitcherScript()\n\t\t</head>\n\t\t<body\n" ++
  "\t\t\tx-data=\"themeHandler\"\n\t\t\tx-bind:class=\"themeClasses\"\n\t\t>\n\t\t\t@modules.Navbar()\n" ++
  "\t\t\t\x7b children... \x7d\n\t\t</body>\n\t</html>\n\x7d\n\x60\x60\x60\n\n" ++
  "3. Create the navbar module:\n" ++
  "   Create \x60ui/modules/navbar.templ\x60 with the following content:\n\n\x60\x60\x60go\n" ++
  "package modules\n\ntempl Navbar() \x7b\n\t<nav class=\"border-b py-3\">\n" ++
  "\t\t<div class=\"container mx-auto px-4 flex justify-between items-center\">\n" ++
  "\t\t\t<a href=\"/\" class=\"text-xl font-bold\">" ++ p5 ++
  "</a>\n\t\t\t<div class=\"flex items-center gap-4\">\n\t\t\t\t<a href=\"/" ++ p2 ++
  "s\" class=\"hover:underline\">" ++ p1 ++
  "s</a>\n\t\t\t\t@ThemeSwitcher()\n\t\t\t</div>\n\t\t</div>\n\t</nav>\n\x7d\n\x60\x60\x60\n\n" ++
  "4. Create the theme switcher module:\n" ++
  "   Create \x60ui/modules/theme_switcher.templ\x60 with the following content:\n\n\x60\x60\x60go\n" ++
  "package modules\n\nimport \"" ++ p5 ++ "/components/button\"\nimport \"" ++ p5 ++
  "/components/icon\"\n\ntempl themeSwitcherHandler() \x7b\n" ++
  "\t\x7b\x7b handle := templ.NewOnceHandle() \x7d\x7d\n\t@handle.Once() \x7b\n" ++
  "\t\t<script nonce=\x7b templ.GetNonce(ctx) \x7d>\n" ++
  "\t\t\tdocument.addEventListener(\x27alpine:init\x27, () => \x7b\n" ++
  "\t\t\t\tAlpine.data(\x27themeSwitcherHandler\x27, () => (\x7b\n\t\t\t\t\tisDarkMode() \x7b\n" ++
  "\t\t\t\t\t\treturn this.isDark\n\t\t\t\t\t\x7d,\n\t\t\t\t\tisLightMode() \x7b\n" ++
  "\t\t\t\t\t\treturn !this.isDark\n\t\t\t\t\t\x7d\n\t\t\t\t\x7d))\n\t\t\t\x7d) \n\t\t</script>\n" ++
  "\t\x7d\n\x7d\n\ntype ThemeSwitcherProps struct \x7b\n\tClass string\n\x7d\n\n" ++
  "templ ThemeSwitcher(props ...ThemeSwitcherProps) \x7b\n" ++
  "\t\x7b\x7b var p ThemeSwitcherProps \x7d\x7d\n\tif len(props) > 0 \x7b\n" ++
  "\t\t\x7b\x7b p = props[0] \x7d\x7d\n\t\x7d\n\t@themeSwitcherHandler()\n" ++
  "\t@button.Button(button.Props\x7b\n\t\tSize:    button.SizeIcon,\n" ++
  "\t\tVariant: button.VariantGhost,\n\t\tClass:   p.Class,\n\t\tAttributes: templ.Attributes\x7b\n" ++
  "\t\t\t\"@click\": \"toggleTheme\",\n\t\t\x7d,\n\t\x7d) \x7b\n\t\t@DynamicThemeIcon()\n\t\x7d\n\x7d\n" ++
  "\ntempl DynamicThemeIcon() \x7b\n\t<div x-data=\"themeSwitcherHandler\">\n" ++
  "\t\t<span x-show=\"isDarkMode\" class=\"block\">\n\t\t\t@LightIcon()\n\t\t</span>\n" ++
  "\t\t<span x-show=\"isLightMode\" class=\"block\">\n\t\t\t@DarkIcon()\n\t\t</span>\n\t</div>\n\x7d\n" ++
  "\ntempl DarkIcon() \x7b\n\t@icon.Moon()\n\x7d\n\ntempl LightIcon() \x7b\n\t@icon.SunMedium()\n\x7d\n" ++
  "\x60\x60\x60\n\n5. Create the " ++ p1 ++ " pages:\n\n   a. Create \x60ui/pages/" ++ p2 ++
  "/index.templ\x60 (List page):\n\n\x60\x60\x60go\npackage " ++ p2 ++ "pages\n\nimport (\n\t\"" ++ p5 ++
  "/layouts\"\n\t\"" ++ p5 ++ "/components/button\"\n\t\"" ++ p5 ++ "/components/alert\"\n\t\"" ++ p5 ++
  "/components/icon\"\n\t\"" ++ p5 ++ "/internal/dto\"\n)\n\ntempl Index(items []dto." ++ p3 ++
  "Response, page int, limit int, total int) \x7b\n\t@layouts.BaseLayout() \x7b\n" ++
  "\t\t<div class=\"container mx-auto px-4 py-8\">\n" ++
  "\t\t\t<div class=\"flex justify-between items-center mb-6\">\n" ++
  "\t\t\t\t<h1 class=\"text-2xl font-bold\">" ++ p1 ++ "s</h1>\n\t\t\t\t<a href=\"/" ++ p2 ++
  "s/new\">\n\t\t\t\t\t@button.Button(button.Props\x7b\x7d) \x7b\n\t\t\t\t\t\tCreate " ++ p1 ++
  "\n\t\t\t\t\t\x7d\n\t\t\t\t</a>\n\t\t\t</div>\n\n\t\t\t<!-- Example of using Alert component -->\n" ++
  "\t\t\t<div class=\"mb-6\">\n\t\t\t\t@alert.Alert() \x7b\n" ++
  "\t\t\t\t\t@icon.Rocket(icon.Props\x7bSize: 16\x7d)\n\t\t\t\t\t@alert.Title() \x7b\n\t\t\t\t\t\t" ++ p1 ++
  " Management\n\t\t\t\t\t\x7d\n\t\t\t\t\t@alert.Description() \x7b\n" ++
  "\t\t\t\t\t\tThis page allows you to manage your " ++ p1 ++ "s. You can create, view, edit, and delete " ++
  p1 ++ "s.\n\t\t\t\t\t\x7d\n\t\t\t\t\x7d\n\t\t\t</div>\n\n" ++
  "\t\t\t<div class=\"bg-card rounded-lg shadow overflow-hidden\">\n" ++
  "\t\t\t\t<table class=\"min-w-full divide-y divide-border\">\n\t\t\t\t\t<thead class=\"bg-muted\">\n" ++
  "\t\t\t\t\t\t<tr>\n" ++
  "\t\t\t\t\t\t\t<th scope=\"col\" class=\"px-6 py-3 text-left text-xs font-medium text-muted-foreground uppercase tracking-wider\">ID</th>\n" ++
  "\t\t\t\t\t\t\t<!-- Add your model fields here -->\n" ++
  "\t\t\t\t\t\t\t<th scope=\"col\" class=\"px-6 py-3 text-left text-xs font-medium text-muted-foreground uppercase tracking-wider\">Name</th>\n" ++
  "\t\t\t\t\t\t\t<th scope=\"col\" class=\"px-6 py-3 text-left text-xs font-medium text-muted-foreground uppercase tracking-wider\">Active</th>\n" ++
  "\t\t\t\t\t\t\t<th scope=\"col\" class=\"px-6 py-3 text-left text-xs font-medium text-muted-foreground uppercase tracking-wider\">Actions</th>\n" ++
  "\t\t\t\t\t\t</tr>\n\t\t\t\t\t</thead>\n\t\t\t\t\t<tbody class=\"bg-card divide-y divide-border\">\n" ++
  "\t\t\t\t\t\tfor _, item := range items \x7b\n\t\t\t\t\t\t\t<tr class=\"hover:bg-muted/50\">\n" ++
  "\t\t\t\t\t\t\t\t<td class=\"px-6 py-4 whitespace-nowrap text-sm\">\x7b item.ID.String() \x7d</td>\n" ++
  "\t\t\t\t\t\t\t\t<!-- Add your model fields here -->\n" ++
  "\t\t\t\t\t\t\t\t<td class=\"px-6 py-4 whitespace-nowrap text-sm\">\x7b item.Name \x7d</td>\n" ++
  "\t\t\t\t\t\t\t\t<td class=\"px-6 py-4 whitespace-nowrap text-sm\">\n" ++
  "\t\t\t\t\t\t\t\t\t\x7b if item.Active \x7b \"Yes\" \x7d else \x7b \"No\" \x7d \x7d\n" ++
  "\t\t\t\t\t\t\t\t</td>\n" ++
  "\t\t\t\t\t\t\t\t<td class=\"px-6 py-4 whitespace-nowrap text-sm flex gap-2\">\n" ++
  "\t\t\t\t\t\t\t\t\t<a href=\x7b templ.SafeURL(\"/" ++ p2 ++
  "s/\" + item.ID.String()) \x7d>\n\t\t\t\t\t\t\t\t\t\t@button.Button(button.Props\x7b\n" ++
  "\t\t\t\t\t\t\t\t\t\t\tVariant: button.VariantOutline,\n" ++
  "\t\t\t\t\t\t\t\t\t\t\tSize: button.SizeSmall,\n\t\t\t\t\t\t\t\t\t\t\x7d) \x7b\n" ++
  "\t\t\t\t\t\t\t\t\t\t\tView\n\t\t\t\t\t\t\t\t\t\t\x7d\n\t\t\t\t\t\t\t\t\t</a>\n" ++
  "\t\t\t\t\t\t\t\t\t<a href=\x7b templ.SafeURL(\"/" ++ p2 ++
  "s/\" + item.ID.String() + \"/edit\") \x7d>\n\t\t\t\t\t\t\t\t\t\t@button.Button(button.Props\x7b\n" ++
  "\t\t\t\t\t\t\t\t\t\t\tVariant: button.VariantOutline,\n" ++
  "\t\t\t\t\t\t\t\t\t\t\tSize: button.SizeSmall,\n\t\t\t\t\t\t\t\t\t\t\x7d) \x7b\n" ++
  "\t\t\t\t\t\t\t\t\t\t\tEdit\n\t\t\t\t\t\t\t\t\t\t\x7d\n\t\t\t\t\t\t\t\t\t</a>\n" ++
  "\t\t\t\t\t\t\t\t\t<form method=\"POST\" action=\x7b \"/" ++ p2 ++
  "s/\" + item.ID.String() + \"/delete\" \x7d onsubmit=\"return confirm(\x27Are you sure you want to delete this " ++
  p2 ++ "?\x27)\">\n\t\t\t\t\t\t\t\t\t\t@button.Button(button.Props\x7b\n" ++
  "\t\t\t\t\t\t\t\t\t\t\tVariant: button.VariantDestructive,\n" ++
  "\t\t\t\t\t\t\t\t\t\t\tSize: button.SizeSmall,\n\t\t\t\t\t\t\t\t\t\t\tType: \"submit\",\n" ++
  "\t\t\t\t\t\t\t\t\t\t\x7d) \x7b\n\t\t\t\t\t\t\t\t\t\t\tDelete\n\t\t\t\t\t\t\t\t\t\t\x7d\n" ++
  "\t\t\t\t\t\t\t\t\t</form>\n\t\t\t\t\t\t\t\t</td>\n\t\t\t\t\t\t\t</tr>\n\t\t\t\t\t\t\x7d\n" ++
  "\t\t\t\t\t</tbody>\n\t\t\t\t</table>\n\t\t\t</div>\n\n\t\t\t<!-- Pagination -->\n" ++
  "\t\t\tif total > 0 \x7b\n\t\t\t\t<div class=\"mt-4 flex justify-between items-center\">\n" ++
  "\t\t\t\t\t<div class=\"text-sm text-muted-foreground\">\n" ++
  "\t\t\t\t\t\tShowing \x7b (page-1)*limit + 1 \x7d to \x7b min((page)*limit, total) \x7d of \x7b total \x7d entries\n" ++
  "\t\t\t\t\t</div>\n\t\t\t\t\t<div class=\"flex gap-2\">\n\t\t\t\t\t\tif page > 1 \x7b\n" ++
  "\t\t\t\t\t\t\t<a href=\x7b templ.SafeURL(fmt.Sprintf(\"/" ++ p2 ++ "s?page=%!d(string=" ++ p3 ++
  ")&limit=%!d(string=" ++ p4 ++
  ")\", page-1, limit)) \x7d>\n\t\t\t\t\t\t\t\t@button.Button(button.Props\x7b\n" ++
  "\t\t\t\t\t\t\t\t\tVariant: button.VariantOutline,\n\t\t\t\t\t\t\t\t\tSize: button.SizeSmall,\n" ++
  "\t\t\t\t\t\t\t\t\x7d) \x7b\n\t\t\t\t\t\t\t\t\tPrevious\n\t\t\t\t\t\t\t\t\x7d\n\t\t\t\t\t\t\t</a>\n" ++
  "\t\t\t\t\t\t\x7d\n\t\t\t\t\t\tif page*limit < total \x7b\n" ++
  "\t\t\t\t\t\t\t<a href=\x7b templ.SafeURL(fmt.Sprintf(\"/" ++ p2 ++ "s?page=%!d(string=" ++ p3 ++
  ")&limit=%!d(string=" ++ p4 ++
  ")\", page+1, limit)) \x7d>\n\t\t\t\t\t\t\t\t@button.Button(button.Props\x7b\n" ++
  "\t\t\t\t\t\t\t\t\tVariant: button.VariantOutline,\n\t\t\t\t\t\t\t\t\tSize: button.SizeSmall,\n" ++
  "\t\t\t\t\t\t\t\t\x7d) \x7b\n\t\t\t\t\t\t\t\t\tNext\n\t\t\t\t\t\t\t\t\x7d\n\t\t\t\t\t\t\t</a>\n" ++
  "\t\t\t\t\t\t\x7d\n\t\t\t\t\t</div>\n\t\t\t\t</div>\n\t\t\t\x7d\n\t\t</div>\n\t\x7d\n\x7d\n\n" ++
  "func min(a, b int) int \x7b\n\tif a < b \x7b\n\t\treturn a\n\t\x7d\n\treturn b\n\x7d\n\x60\x60\x60\n" ++
  "\n   b. Create \x60ui/pages/" ++ p2 ++ "/show.templ\x60 (Detail page):\n\n\x60\x60\x60go\npackage " ++ p2 ++
  "pages\n\nimport (\n\t\"" ++ p5 ++ "/layouts\"\n\t\"" ++ p5 ++ "/components/button\"\n\t\"" ++ p5 ++
  "/components/alert\"\n\t\"" ++ p5 ++ "/components/icon\"\n\t\"" ++ p5 ++
  "/internal/dto\"\n)\n\ntempl Show(item dto." ++ p3 ++
  "Response) \x7b\n\t@layouts.BaseLayout() \x7b\n\t\t<div class=\"container mx-auto px-4 py-8\">\n" ++
  "\t\t\t<div class=\"mb-6\">\n\t\t\t\t<a href=\"/" ++ p2 ++
  "s\">\n\t\t\t\t\t@button.Button(button.Props\x7b\n\t\t\t\t\t\tVariant: button.VariantOutline,\n" ++
  "\t\t\t\t\t\x7d) \x7b\n\t\t\t\t\t\t\u2190 Back to " ++ p1 ++
  "s\n\t\t\t\t\t\x7d\n\t\t\t\t</a>\n\t\t\t</div>\n\n\t\t\t<!-- Example of using Alert component -->\n" ++
  "\t\t\t<div class=\"mb-6\">\n\t\t\t\t@alert.Alert(alert.Props\x7b\n" ++
  "\t\t\t\t\tVariant: alert.VariantInfo,\n\t\t\t\t\x7d) \x7b\n" ++
  "\t\t\t\t\t@icon.Info(icon.Props\x7bSize: 16\x7d)\n\t\t\t\t\t@alert.Title() \x7b\n\t\t\t\t\t\t" ++ p1 ++
  " Details\n\t\t\t\t\t\x7d\n\t\t\t\t\t@alert.Description() \x7b\n" ++
  "\t\t\t\t\t\tYou are viewing the details of a " ++ p1 ++ ". You can edit or delete this " ++ p1 ++
  " using the buttons above.\n\t\t\t\t\t\x7d\n\t\t\t\t\x7d\n\t\t\t</div>\n\n" ++
  "\t\t\t<div class=\"bg-card rounded-lg shadow overflow-hidden p-6\">\n" ++
  "\t\t\t\t<div class=\"flex justify-between items-center mb-6\">\n" ++
  "\t\t\t\t\t<h1 class=\"text-2xl font-bold\">" ++ p1 ++
  " Details</h1>\n\t\t\t\t\t<div class=\"flex gap-2\">\n\t\t\t\t\t\t<a href=\x7b templ.SafeURL(\"/" ++ p2 ++
  "s/\" + item.ID.String() + \"/edit\") \x7d>\n" ++
  "\t\t\t\t\t\t\t@button.Button(button.Props\x7b\x7d) \x7b\n\t\t\t\t\t\t\t\tEdit\n\t\t\t\t\t\t\t\x7d\n" ++
  "\t\t\t\t\t\t</a>\n\t\t\t\t\t\t<form method=\"POST\" action=\x7b \"/" ++ p2 ++
  "s/\" + item.ID.String() + \"/delete\" \x7d onsubmit=\"return confirm(\x27Are you sure you want to delete this " ++
  p2 ++ "?\x27)\">\n\t\t\t\t\t\t\t@button.Button(button.Props\x7b\n" ++
  "\t\t\t\t\t\t\t\tVariant: button.VariantDestructive,\n\t\t\t\t\t\t\t\tType: \"submit\",\n" ++
  "\t\t\t\t\t\t\t\x7d) \x7b\n\t\t\t\t\t\t\t\tDelete\n\t\t\t\t\t\t\t\x7d\n\t\t\t\t\t\t</form>\n" ++
  "\t\t\t\t\t</div>\n\t\t\t\t</div>\n\n\t\t\t\t<div class=\"grid grid-cols-1 md:grid-cols-2 gap-4\">\n" ++
  "\t\t\t\t\t<div class=\"space-y-2\">\n" ++
  "\t\t\t\t\t\t<p class=\"text-sm font-medium text-muted-foreground\">ID</p>\n" ++
  "\t\t\t\t\t\t<p>\x7b item.ID.String() \x7d</p>\n\t\t\t\t\t</div>\n" ++
  "\t\t\t\t\t<!-- Add your model fields here -->\n\t\t\t\t\t<div class=\"space-y-2\">\n" ++
  "\t\t\t\t\t\t<p class=\"text-sm font-medium text-muted-foreground\">Name</p>\n" ++
  "\t\t\t\t\t\t<p>\x7b item.Name \x7d</p>\n\t\t\t\t\t</div>\n\t\t\t\t\t<div class=\"space-y-2\">\n" ++
  "\t\t\t\t\t\t<p class=\"text-sm font-medium text-muted-foreground\">Active</p>\n" ++
  "\t\t\t\t\t\t<p>\x7b if item.Active \x7b \"Yes\" \x7d else \x7b \"No\" \x7d \x7d</p>\n" ++
  "\t\t\t\t\t</div>\n\t\t\t\t\t<!-- Add more fields as needed -->\n\t\t\t\t</div>\n\t\t\t</div>\n" ++
  "\t\t</div>\n\t\x7d\n\x7d\n\x60\x60\x60\n\n   c. Create \x60ui/pages/" ++ p2 ++
  "/form.templ\x60 (Create/Edit form):\n\n\x60\x60\x60go\npackage " ++ p2 ++ "pages\n\nimport (\n\t\"" ++ p5 ++
  "/layouts\"\n\t\"" ++ p5 ++ "/components/button\"\n\t\"" ++ p5 ++ "/components/input\"\n\t\"" ++ p5 ++
  "/components/checkbox\"\n\t\"" ++ p5 ++ "/components/alert\"\n\t\"" ++ p5 ++
  "/internal/dto\"\n)\n\ntype FormMode string\n\nconst (\n\tFormModeCreate FormMode = \"create\"\n" ++
  "\tFormModeEdit   FormMode = \"edit\"\n)\n\ntempl Form(mode FormMode, item *dto." ++ p3 ++
  "Response, errors map[string]string) \x7b\n\t@layouts.BaseLayout() \x7b\n" ++
  "\t\t<div class=\"container mx-auto px-4 py-8\">\n\t\t\t<div class=\"mb-6\">\n\t\t\t\t<a href=\"/" ++ p2 ++
  "s\">\n\t\t\t\t\t@button.Button(button.Props\x7b\n\t\t\t\t\t\tVariant: button.VariantOutline,\n" ++
  "\t\t\t\t\t\x7d) \x7b\n\t\t\t\t\t\t\u2190 Back to " ++ p1 ++
  "s\n\t\t\t\t\t\x7d\n\t\t\t\t</a>\n\t\t\t</div>\n\n" ++
  "\t\t\t<div class=\"bg-card rounded-lg shadow overflow-hidden p-6\">\n" ++
  "\t\t\t\t<h1 class=\"text-2xl font-bold mb-6\">\n\t\t\t\t\tif mode == FormModeCreate \x7b\n" ++
  "\t\t\t\t\t\tCreate New " ++ p1 ++ "\n\t\t\t\t\t\x7d else \x7b\n\t\t\t\t\t\tEdit " ++ p1 ++
  "\n\t\t\t\t\t\x7d\n\t\t\t\t</h1>\n\n\t\t\t\t<form method=\"POST\" class=\"space-y-6\">\n" ++
  "\t\t\t\t\t<!-- Example of using Alert component for form errors -->\n" ++
  "\t\t\t\t\tif errorMsg, ok := errors[\"general\"]; ok \x7b\n\t\t\t\t\t\t<div class=\"mb-6\">\n" ++
  "\t\t\t\t\t\t\t@alert.Alert(alert.Props\x7b\n\t\t\t\t\t\t\t\tVariant: alert.VariantDestructive,\n" ++
  "\t\t\t\t\t\t\t\x7d) \x7b\n\t\t\t\t\t\t\t\t@icon.AlertTriangle(icon.Props\x7bSize: 16\x7d)\n" ++
  "\t\t\t\t\t\t\t\t@alert.Title() \x7b\n\t\t\t\t\t\t\t\t\tError\n\t\t\t\t\t\t\t\t\x7d\n" ++
  "\t\t\t\t\t\t\t\t@alert.Description() \x7b\n\t\t\t\t\t\t\t\t\t\x7b errorMsg \x7d\n" ++
  "\t\t\t\t\t\t\t\t\x7d\n\t\t\t\t\t\t\t\x7d\n\t\t\t\t\t\t</div>\n\t\t\t\t\t\x7d\n\n" ++
  "\t\t\t\t\t<!-- Example of using Input component -->\n\t\t\t\t\t<div class=\"space-y-2\">\n" ++
  "\t\t\t\t\t\t<label for=\"name\" class=\"block text-sm font-medium\">Name</label>\n" ++
  "\t\t\t\t\t\t@input.Input(input.Props\x7b\n\t\t\t\t\t\t\tType: input.TypeText,\n" ++
  "\t\t\t\t\t\t\tId: \"name\",\n\t\t\t\t\t\t\tName: \"name\",\n\t\t\t\t\t\t\tValue: item.Name,\n" ++
  "\t\t\t\t\t\t\tPlaceholder: \"Enter name\",\n\t\t\t\t\t\t\tRequired: true,\n\t\t\t\t\t\t\x7d)\n" ++
  "\t\t\t\t\t\tif errorMsg, ok := errors[\"name\"]; ok \x7b\n" ++
  "\t\t\t\t\t\t\t<p class=\"text-destructive text-sm mt-1\">\x7b errorMsg \x7d</p>\n\t\t\t\t\t\t\x7d\n" ++
  "\t\t\t\t\t</div>\n\n\t\t\t\t\t<!-- Example of using Checkbox component -->\n" ++
  "\t\t\t\t\t<div class=\"space-y-2\">\n\t\t\t\t\t\t<div class=\"flex items-center gap-2\">\n" ++
  "\t\t\t\t\t\t\t@checkbox.Checkbox(checkbox.Props\x7b\n\t\t\t\t\t\t\t\tId: \"active\",\n" ++
  "\t\t\t\t\t\t\t\tName: \"active\",\n\t\t\t\t\t\t\t\tChecked: item.Active,\n\t\t\t\t\t\t\t\x7d)\n" ++
  "\t\t\t\t\t\t\t<label for=\"active\" class=\"text-sm font-medium\">\n\t\t\t\t\t\t\t\tActive\n" ++
  "\t\t\t\t\t\t\t</label>\n\t\t\t\t\t\t</div>\n" ++
  "\t\t\t\t\t\tif errorMsg, ok := errors[\"active\"]; ok \x7b\n" ++
  "\t\t\t\t\t\t\t<p class=\"text-destructive text-sm mt-1\">\x7b errorMsg \x7d</p>\n\t\t\t\t\t\t\x7d\n" ++
  "\t\t\t\t\t</div>\n\n\t\t\t\t\t<!-- Add more form fields as needed -->\n\n" ++
  "\t\t\t\t\t<div class=\"flex justify-end\">\n\t\t\t\t\t\t<a href=\"/" ++ p2 ++
  "s\" class=\"mr-2\">\n\t\t\t\t\t\t\t@button.Button(button.Props\x7b\n" ++
  "\t\t\t\t\t\t\t\tVariant: button.VariantOutline,\n\t\t\t\t\t\t\t\x7d) \x7b\n\t\t\t\t\t\t\t\tCancel\n" ++
  "\t\t\t\t\t\t\t\x7d\n\t\t\t\t\t\t</a>\n\t\t\t\t\t\t@button.Button(button.Props\x7b\n" ++
  "\t\t\t\t\t\t\tType: \"submit\",\n\t\t\t\t\t\t\x7d) \x7b\n" ++
  "\t\t\t\t\t\t\tif mode == FormModeCreate \x7b\n\t\t\t\t\t\t\t\tCreate " ++ p1 ++
  "\n\t\t\t\t\t\t\t\x7d else \x7b\n\t\t\t\t\t\t\t\tUpdate " ++ p1 ++
  "\n\t\t\t\t\t\t\t\x7d\n\t\t\t\t\t\t\x7d\n\t\t\t\t\t</div>\n\t\t\t\t</form>\n\t\t\t</div>\n" ++
  "\t\t</div>\n\t\x7d\n\x7d\n\x60\x60\x60\n\n6. Create the HTML controller:\n" ++
  "   Create \x60internal/controllers/" ++ p2 ++
  "/html_controller.go\x60 with the following content:\n\n\x60\x60\x60go\npackage controllers\n\n" ++
  "import (\n\t\"net/http\"\n\t\"strconv\"\n\n\t\"github.com/labstack/echo/v4\"\n\t\"" ++ p5 ++
  "/internal/service\"\n\t\"" ++ p5 ++ "/internal/dto\"\n\t\"" ++ p5 ++ "/pages/" ++ p2 ++ "\"\n)\n\ntype " ++
  p3 ++ "HtmlController interface \x7b\n\tIndex(c echo.Context) error\n\tShow(c echo.Context) error\n" ++
  "\tNew(c echo.Context) error\n\tCreate(c echo.Context) error\n\tEdit(c echo.Context) error\n" ++
  "\tUpdate(c echo.Context) error\n\tDelete(c echo.Context) error\n\x7d\n\ntype " ++ p3 ++
  "HtmlControllerImpl struct \x7b\n\t" ++ p4 ++ "Service service." ++ p3 ++ "Service\n\x7d\n\nfunc New" ++ p3 ++
  "HtmlController(" ++ p4 ++ "Service service." ++ p3 ++ "Service) " ++ p3 ++
  "HtmlController \x7b\n\treturn &" ++ p3 ++ "HtmlControllerImpl\x7b" ++ p4 ++ "Service: " ++ p4 ++
  "Service\x7d\n\x7d\n\n// Index renders the list page\nfunc (ctrl *" ++ p3 ++
  "HtmlControllerImpl) Index(c echo.Context) error \x7b\n\t// Parse pagination parameters\n" ++
  "\tpage, _ := strconv.Atoi(c.QueryParam(\"page\"))\n\tif page <= 0 \x7b\n\t\tpage = 1\n\t\x7d\n" ++
  "\tlimit, _ := strconv.Atoi(c.QueryParam(\"limit\"))\n\tif limit <= 0 \x7b\n\t\tlimit = 10\n\t\x7d\n" ++
  "\n\t// You might want to parse query parameters for filtering here\n" ++
  "\tfilters := make(map[string]interface\x7b\x7d)\n" ++
  "\t// Example: filters[\"name\"] = c.QueryParam(\"name\")\n\n\tresult, err := ctrl." ++ p4 ++
  "Service.List(c.Request().Context(), page, limit, filters)\n\tif err != nil \x7b\n" ++
  "\t\treturn echo.NewHTTPError(http.StatusInternalServerError, err.Error())\n\t\x7d\n\n\treturn " ++ p2 ++
  "pages.Index(result.Items, page, limit, result.Total).Render(c.Request().Context(), c.Response().Writer)\n" ++
  "\x7d\n\n// Show renders the detail page\nfunc (ctrl *" ++ p3 ++
  "HtmlControllerImpl) Show(c echo.Context) error \x7b\n" ++
  "\tid, err := strconv.ParseUint(c.Param(\"id\"), 10, 64)\n\tif err != nil \x7b\n" ++
  "\t\treturn echo.NewHTTPError(http.StatusBadRequest, \"Invalid ID\")\n\t\x7d\n\n" ++
  "\tresult, err := ctrl." ++ p4 ++ "Service.GetByID(c.Request().Context(), uint(id))\n\tif err != nil \x7b\n" ++
  "\t\treturn echo.NewHTTPError(http.StatusInternalServerError, err.Error())\n\t\x7d\n\n\treturn " ++ p2 ++
  "pages.Show(*result).Render(c.Request().Context(), c.Response().Writer)\n\x7d\n\n" ++
  "// New renders the create form\nfunc (ctrl *" ++ p3 ++
  "HtmlControllerImpl) New(c echo.Context) error \x7b\n\t// Create an empty item for the form\n" ++
  "\titem := &dto." ++ p3 ++ "Response\x7b\x7d\n\treturn " ++ p2 ++ "pages.Form(" ++ p2 ++
  "pages.FormModeCreate, item, nil).Render(c.Request().Context(), c.Response().Writer)\n\x7d\n\n" ++
  "// Create handles the form submission for creating a new item\nfunc (ctrl *" ++ p3 ++
  "HtmlControllerImpl) Create(c echo.Context) error \x7b\n\treq := new(dto.Create" ++ p3 ++
  "Request)\n\tif err := c.Bind(req); err != nil \x7b\n\t\t// Create an empty item for the form\n" ++
  "\t\titem := &dto." ++ p3 ++
  "Response\x7b\x7d\n\t\terrors := map[string]string\x7b\"general\": err.Error()\x7d\n\t\treturn " ++ p2 ++
  "pages.Form(" ++ p2 ++
  "pages.FormModeCreate, item, errors).Render(c.Request().Context(), c.Response().Writer)\n\t\x7d\n\n" ++
  "\t// Add validation here if needed\n\tresult, err := ctrl." ++ p4 ++
  "Service.Create(c.Request().Context(), req)\n\tif err != nil \x7b\n" ++
  "\t\t// Return to form with errors\n\t\titem := &dto." ++ p3 ++
  "Response\x7b\n\t\t\t// Map request fields to response fields\n\t\t\t// Example: Name: req.Name,\n" ++
  "\t\t\t// Example: Active: req.Active,\n\t\t\x7d\n" ++
  "\t\terrors := map[string]string\x7b\"general\": err.Error()\x7d\n\t\treturn " ++ p2 ++ "pages.Form(" ++ p2 ++
  "pages.FormModeCreate, item, errors).Render(c.Request().Context(), c.Response().Writer)\n\t\x7d\n\n" ++
  "\t// Redirect to the detail page\n\treturn c.Redirect(http.StatusSeeOther, \"/" ++ p2 ++
  "s/\"+strconv.FormatUint(uint64(result.ID), 10))\n\x7d\n\n// Edit renders the edit form\nfunc (ctrl *" ++ p3 ++
  "HtmlControllerImpl) Edit(c echo.Context) error \x7b\n" ++
  "\tid, err := strconv.ParseUint(c.Param(\"id\"), 10, 64)\n\tif err != nil \x7b\n" ++
  "\t\treturn echo.NewHTTPError(http.StatusBadRequest, \"Invalid ID\")\n\t\x7d\n\n" ++
  "\tresult, err := ctrl." ++ p4 ++ "Service.GetByID(c.Request().Context(), uint(id))\n\tif err != nil \x7b\n" ++
  "\t\treturn echo.NewHTTPError(http.StatusInternalServerError, err.Error())\n\t\x7d\n\n\treturn " ++ p2 ++
  "pages.Form(" ++ p2 ++
  "pages.FormModeEdit, result, nil).Render(c.Request().Context(), c.Response().Writer)\n\x7d\n\n" ++
  "// Update handles the form submission for updating an item\nfunc (ctrl *" ++ p3 ++
  "HtmlControllerImpl) Update(c echo.Context) error \x7b\n" ++
  "\tid, err := strconv.ParseUint(c.Param(\"id\"), 10, 64)\n\tif err != nil \x7b\n" ++
  "\t\treturn echo.NewHTTPError(http.StatusBadRequest, \"Invalid ID\")\n\t\x7d\n\n" ++
  "\treq := new(dto.Update" ++ p3 ++
  "Request)\n\tif err := c.Bind(req); err != nil \x7b\n\t\t// Get the current item for the form\n" ++
  "\t\tresult, _ := ctrl." ++ p4 ++ "Service.GetByID(c.Request().Context(), uint(id))\n" ++
  "\t\terrors := map[string]string\x7b\"general\": err.Error()\x7d\n\t\treturn " ++ p2 ++ "pages.Form(" ++ p2 ++
  "pages.FormModeEdit, result, errors).Render(c.Request().Context(), c.Response().Writer)\n\t\x7d\n" ++
  "\treq.ID = uint(id)\n\n\t// Add validation here if needed\n\tresult, err := ctrl." ++ p4 ++
  "Service.Update(c.Request().Context(), req)\n\tif err != nil \x7b\n" ++
  "\t\t// Return to form with errors\n\t\titem, _ := ctrl." ++ p4 ++
  "Service.GetByID(c.Request().Context(), uint(id))\n" ++
  "\t\terrors := map[string]string\x7b\"general\": err.Error()\x7d\n\t\treturn " ++ p2 ++ "pages.Form(" ++ p2 ++
  "pages.FormModeEdit, item, errors).Render(c.Request().Context(), c.Response().Writer)\n\t\x7d\n\n" ++
  "\t// Redirect to the detail page\n\treturn c.Redirect(http.StatusSeeOther, \"/" ++ p2 ++
  "s/\"+strconv.FormatUint(uint64(result.ID), 10))\n\x7d\n\n// Delete handles the deletion of an item\n" ++
  "func (ctrl *" ++ p3 ++ "HtmlControllerImpl) Delete(c echo.Context) error \x7b\n" ++
  "\tid, err := strconv.ParseUint(c.Param(\"id\"), 10, 64)\n\tif err != nil \x7b\n" ++
  "\t\treturn echo.NewHTTPError(http.StatusBadRequest, \"Invalid ID\")\n\t\x7d\n\n\tif err := ctrl." ++ p4 ++
  "Service.Delete(c.Request().Context(), uint(id)); err != nil \x7b\n" ++
  "\t\treturn echo.NewHTTPError(http.StatusInternalServerError, err.Error())\n\t\x7d\n\n" ++
  "\t// Redirect to the list page\n\treturn c.Redirect(http.StatusSeeOther, \"/" ++ p2 ++
  "s\")\n\x7d\n\x60\x60\x60\n\n7. Update your main.go to register the HTML routes:\n" ++
  "   Add the following to your main.go file:\n\n\x60\x60\x60go\n// Initialize HTML controllers\n" ++ p4 ++
  "HtmlController := controllers.New" ++ p3 ++ "HtmlController(" ++ p4 ++
  "Service)\n\n// HTML Routes\ne.GET(\"/" ++ p2 ++ "s\", " ++ p4 ++ "HtmlController.Index)\ne.GET(\"/" ++ p2 ++
  "s/new\", " ++ p4 ++ "HtmlController.New)\ne.POST(\"/" ++ p2 ++ "s\", " ++ p4 ++
  "HtmlController.Create)\ne.GET(\"/" ++ p2 ++ "s/:id\", " ++ p4 ++ "HtmlController.Show)\ne.GET(\"/" ++ p2 ++
  "s/:id/edit\", " ++ p4 ++ "HtmlController.Edit)\ne.POST(\"/" ++ p2 ++ "s/:id\", " ++ p4 ++
  "HtmlController.Update)\ne.POST(\"/" ++ p2 ++ "s/:id/delete\", " ++ p4 ++
  "HtmlController.Delete)\n\n// Serve static files\ne.Static(\"/assets\", \"assets\")\n\x60\x60\x60\n\n" ++
  "8. Start the development server:\n   \x60make dev\x60\n\nThis will:\n" ++
  "- Watch and compile templ files\n- Start the Go server with hot reload\n" ++
  "- Watch and compile Tailwind CSS changes\n"

/-- Opening line written by FixAppHandler before any conditional text (fix_app.go). -/
def fixAppIntro : String :=
  "Here are some pointers to address common issues in your Echo web application:\n\n"

/-- Line written by FixAppHandler only when app name is non-empty (fix_app.go). -/
def fixAppForApplication (appName : String) : String :=
  "For application \x27" ++ appName ++ "\x27:\n"

/-- The five-point static checklist written by FixAppHandler after the optional application line (fix_app.go). -/
def fixAppChecklistBody (appName : String) : String :=
  "1.  **Go Module Paths**: Ensure your Go module is correctly initialized and that internal imports use the module name.\n" ++
  "    If your module is named \x60" ++ appName ++
  "\x60, then imports for internal packages should look like:\n    \x60\x60\x60go\n    import (\n" ++
  "        \"" ++ appName ++ "/internal/models\"\n        \"" ++ appName ++
  "/internal/repository\"\n        \"" ++ appName ++ "/internal/service\"\n        \"" ++ appName ++
  "/internal/controllers\"\n    )\n    \x60\x60\x60\n    Make sure to replace \x60" ++ appName ++
  "\x60 with your actual module name.\n\n" ++
  "2.  **Missing Dependencies**: If you see errors like \"no required module provides package...\", run \x60go mod tidy\x60 in your application\x27s root directory (\x60cd " ++
  appName ++ " && go mod tidy\x60) to fetch missing dependencies.\n\n" ++
  "3.  **Database Initialization**: Ensure your \x60main.go\x60 (in \x60cmd/web/\x60) correctly initializes the GORM database connection and auto-migrates all your models. For example:\n" ++
  "    \x60\x60\x60go\n    import (\n        \"gorm.io/driver/sqlite\"\n        \"gorm.io/gorm\"\n" ++
  "        \"" ++ appName ++ "/internal/models\"\n    )\n\n    func main() \x7b\n" ++
  "        db, err := gorm.Open(sqlite.Open(\"gorm.db\"), &gorm.Config\x7b\x7d)\n" ++
  "        if err != nil \x7b\n            // handle error\n        \x7d\n" ++
  "        db.AutoMigrate(&models.Product\x7b\x7d, &models.Customer\x7b\x7d, &models.ProductCustomer\x7b\x7d) // Add all your models\n" ++
  "    \x7d\n    \x60\x60\x60\n\n" ++
  "4.  **Repository, Service, and Controller Initialization**: Verify that you are creating instances of your repositories, services, and controllers, and injecting dependencies correctly (repositories into services, services into controllers).\n" ++
  "\n" ++
  "5.  **Route Registration**: Ensure all your controller methods have corresponding routes registered in your \x60main.go\x60 (in \x60cmd/web/\x60). For example:\n" ++
  "    \x60\x60\x60go\n    e.POST(\"/products\", productController.CreateProduct)\n" ++
  "    e.GET(\"/products/:id\", productController.GetProductByID)\n" ++
  "    // ... and so on for all CRUD operations and models\n    \x60\x60\x60\n"

/-- Text written by FixAppHandler when error message is non-empty (fix_app.go). -/
def fixAppRegardingError (errorMessage : String) : String :=
  "\n\nRegarding your specific error: \"" ++ errorMessage ++ "\"\n"

/-- Extra hint appended by FixAppHandler when the error message contains the substring "is not in std" (fix_app.go). -/
def fixAppStdHint : String :=
  "This error typically means Go cannot find your internal packages. Double-check your import paths to ensure they use your module name (e.g., \x60[appname]/internal/models\x60) and run \x60go mod tidy\x60.\n"

/-- The model declaration string (modelContent in the source): the
modelContent template filled with strings.Title of the model name and the
newline-join of the struct-field lines. -/
def modelContent (modelName : String) (structFields : List String) : String :=
  modelContentTemplate (goTitle modelName) (goJoin "\n" structFields)

/-- Handler of the produce_model_boilerplate tool.  The dynamic part of the
Go json error text is modelled by a fixed message; the claims only inspect
the error/success distinction of that branch. -/
def ProduceModelBoilerplateHandler (req : CallToolRequest) : ToolResult :=
  let appName := getString req "app_name" ""
  if appName = "" then .error "App name is required"
  else
    match requireString req "model_name" with
    | .error e => .error ("Error getting \x27model_name\x27: " ++ e)
    | .ok modelName =>
      match requireString req "fields" with
      | .error e => .error ("Error getting \x27fields\x27: " ++ e)
      | .ok fieldsJSON =>
        match parseFields fieldsJSON with
        | none => .error "Invalid \x27fields\x27 JSON format: invalid JSON payload"
        | some fields =>
          let structFields := structFieldsOf fields
          let mc := modelContent modelName structFields
          let titleModelName := goTitle modelName
          let lowerModelName := goToLower modelName
          .text (produceModelResponse titleModelName lowerModelName mc
            titleModelName lowerModelName appName)

/-- Handler of the produce_api_controller_boilerplate tool. -/
def ProduceApiControllerBoilerplateHandler (req : CallToolRequest) : ToolResult :=
  let appName := getString req "app_name" ""
  if appName = "" then .error "App name is required"
  else
    match requireString req "model_name" with
    | .error e => .error ("Error getting \x27model_name\x27: " ++ e)
    | .ok modelName =>
      let titleModelName := goTitle modelName
      let lowerModelName := goToLower modelName
      .text (apiControllerResponse titleModelName lowerModelName titleModelName
        lowerModelName appName)

/-- Handler of the produce_service_boilerplate tool (defined in
produce_api_controller_boilerplate.go). -/
def ProduceServiceBoilerplateHandler (req : CallToolRequest) : ToolResult :=
  let appName := getString req "app_name" ""
  if appName = "" then .error "App name is required"
  else
    match requireString req "model_name" with
    | .error e => .error ("Error getting \x27model_name\x27: " ++ e)
    | .ok modelName =>
      let titleModelName := goTitle modelName
      let lowerModelName := goToLower modelName
      .text (serviceBoilerplateResponse titleModelName lowerModelName appName)

/-- Handler of the produce_app_boilerplate tool. -/
def ProduceAppBoilerplateHandler (req : CallToolRequest) : ToolResult :=
  match requireString req "app_name" with
  | .error e => .error ("Error getting \x27app_name\x27: " ++ e)
  | .ok appName =>
    .text (appBoilerplateResponse appName appName appName appName appName appName)

/-- Handler of the produce_html_controller_boilerplate tool (defined in
produce_app_boilerplate.go). -/
def ProduceHtmlControllerBoilerplateHandler (req : CallToolRequest) : ToolResult :=
  let appName := getString req "app_name" ""
  if appName = "" then .error "App name is required"
  else
    match requireString req "model_name" with
    | .error e => .error ("Error getting \x27model_name\x27: " ++ e)
    | .ok modelName =>
      let titleModelName := goTitle modelName
      let lowerModelName := goToLower modelName
      .text (htmlControllerResponse titleModelName lowerModelName titleModelName
        lowerModelName appName)

/-- Handler of the fix_app tool: the static checklist, an optional
per-application line, and an optional error-specific section that appends the
import-path hint exactly when the error message contains "is not in std". -/
def FixAppHandler (req : CallToolRequest) : ToolResult :=
  let appName := getString req "app_name" ""
  let errorMessage := getString req "error_message" ""
  .text (fixAppIntro ++
    (if appName ≠ "" then fixAppForApplication appName else "") ++
    fixAppChecklistBody appName ++
    (if errorMessage ≠ "" then
      fixAppRegardingError errorMessage ++
        (if goContains errorMessage "is not in std" then fixAppStdHint else "")
    else ""))

/-! Lemmas about the character-level casing model. -/

theorem char_toNat_ofNat (n : Nat) (h : n < 55296) : (Char.ofNat n).toNat = n := by
  have hv : n.isValidChar := Or.inl h
  rw [Char.ofNat, dif_pos hv]
  exact rfl

theorem char_eq_of_toNat_eq {c d : Char} (h : c.toNat = d.toNat) : c = d := by
  apply Char.ext; apply UInt32.ext; exact h

theorem goToTitle_toNat (c : Char) :
    (goToTitle c).toNat =
      if 97 ≤ c.toNat ∧ c.toNat ≤ 122 then c.toNat - 32 else c.toNat := by
  unfold goToTitle
  split
  · next h => exact char_toNat_ofNat _ (by omega)
  · rfl

theorem goToTitle_idem (c : Char) : goToTitle (goToTitle c) = goToTitle c := by
  apply char_eq_of_toNat_eq
  have h2 := goToTitle_toNat c
  rw [goToTitle_toNat (goToTitle c)]
  by_cases h : 97 ≤ c.toNat ∧ c.toNat ≤ 122
  · rw [if_pos h] at h2
    rw [if_neg (by omega)]
  · rw [if_neg h] at h2
    rw [if_neg (by omega)]

theorem goToTitle_eq_self {c : Char} (h : ¬(97 ≤ c.toNat ∧ c.toNat ≤ 122)) :
    goToTitle c = c := by
  unfold goToTitle
  rw [if_neg h]

theorem isSeparator_goToTitle (c : Char) : isSeparator (goToTitle c) = isSeparator c := by
  by_cases h : 97 ≤ c.toNat ∧ c.toNat ≤ 122
  · have h1 : (goToTitle c).toNat = c.toNat - 32 := by rw [goToTitle_toNat, if_pos h]
    unfold isSeparator
    rw [h1]
    rw [if_pos (by omega), if_pos (by omega)]
    have e1 : ((48 ≤ c.toNat - 32 ∧ c.toNat - 32 ≤ 57) ∨
        (97 ≤ c.toNat - 32 ∧ c.toNat - 32 ≤ 122) ∨
        (65 ≤ c.toNat - 32 ∧ c.toNat - 32 ≤ 90) ∨ c.toNat - 32 = 95) := by omega
    have e2 : ((48 ≤ c.toNat ∧ c.toNat ≤ 57) ∨ (97 ≤ c.toNat ∧ c.toNat ≤ 122) ∨
        (65 ≤ c.toNat ∧ c.toNat ≤ 90) ∨ c.toNat = 95) := by omega
    rw [decide_eq_true e1, decide_eq_true e2]
  · rw [goToTitle_eq_self h]

theorem goToTitle_ne_newline {c : Char} (h : goToTitle c = '\n') : c = '\n' := by
  by_cases hr : 97 ≤ c.toNat ∧ c.toNat ≤ 122
  · exfalso
    have h1 : (goToTitle c).toNat = c.toNat - 32 := by rw [goToTitle_toNat, if_pos hr]
    rw [h] at h1
    have h2 : ('\n' : Char).toNat = 10 := rfl
    omega
  · rw [goToTitle_eq_self hr] at h
    exact h

/-! Lemmas about titleMap, the core of the strings.Title model. -/

theorem titleMap_titleMap (cs : List Char) : ∀ (p q : Char),
    isSeparator p = isSeparator q → titleMap p (titleMap q cs) = titleMap q cs := by
  induction cs with
  | nil => intro p q _; rfl
  | cons c cs ih =>
    intro p q hpq
    simp only [titleMap]
    by_cases hq : isSeparator q = true
    · rw [hq] at hpq
      rw [hq, hpq]
      simp only [reduceIte]
      rw [goToTitle_idem]
      exact congrArg _ (ih (goToTitle c) c (isSeparator_goToTitle c))
    · rw [Bool.not_eq_true] at hq
      rw [hq] at hpq
      rw [hq, hpq]
      simp only [Bool.false_eq_true, if_false]
      exact congrArg _ (ih c c rfl)

theorem goTitle_goTitle (s : String) : goTitle (goTitle s) = goTitle s := by
  unfold goTitle
  exact congrArg String.mk (titleMap_titleMap s.data ' ' ' ' rfl)

theorem newline_not_mem_titleMap {cs : List Char} (h : '\n' ∉ cs) :
    ∀ p, '\n' ∉ titleMap p cs := by
  induction cs with
  | nil => intro p hc; simp [titleMap] at hc
  | cons c cs ih =>
    intro p hc
    have hcne : c ≠ '\n' := fun he => h (by rw [he]; exact List.mem_cons_self _ _)
    have htl : '\n' ∉ cs := fun hm => h (List.mem_cons_of_mem _ hm)
    rcases List.mem_cons.mp hc with h1 | h1
    · by_cases hs : isSeparator p = true
      · rw [if_pos hs] at h1
        exact hcne (goToTitle_ne_newline h1.symm)
      · rw [if_neg hs] at h1
        exact hcne h1.symm
    · exact ih htl c h1

theorem newline_not_mem_goTitle {s : String} (h : '\n' ∉ s.data) :
    '\n' ∉ (goTitle s).data :=
  newline_not_mem_titleMap h ' '

/-! Lemmas about line splitting and joining. -/

theorem splitNl_ne_nil (cs : List Char) : splitNl cs ≠ [] := by
  induction cs with
  | nil => simp [splitNl]
  | cons c cs ih =>
    simp only [splitNl]
    split
    · simp
    · cases h : splitNl cs with
      | nil => exact absurd h ih
      | cons a l => simp [List.modifyHead]

theorem splitNl_append (xs ys : List Char) :
    splitNl (xs ++ '\n' :: ys) = splitNl xs ++ splitNl ys := by
  induction xs with
  | nil => simp [splitNl]
  | cons c xs ih =>
    simp only [List.cons_append, splitNl, List.append_eq]
    by_cases hc : c = '\n'
    · rw [if_pos hc, if_pos hc, ih]
      simp
    · rw [if_neg hc, if_neg hc, ih]
      cases h : splitNl xs with
      | nil => exact absurd h (splitNl_ne_nil xs)
      | cons a l => simp [List.modifyHead]

theorem splitNl_no_newline {xs : List Char} (h : '\n' ∉ xs) : splitNl xs = [xs] := by
  induction xs with
  | nil => rfl
  | cons c xs ih =>
    have hc : c ≠ '\n' := fun he => h (by rw [he]; exact List.mem_cons_self _ _)
    have htl : '\n' ∉ xs := fun hm => h (List.mem_cons_of_mem _ hm)
    simp only [splitNl]
    rw [if_neg hc, ih htl]
    rfl

theorem linesOf_no_newline {s : String} (h : '\n' ∉ s.data) : linesOf s = [s] := by
  unfold linesOf
  rw [splitNl_no_newline h]
  rfl

theorem data_append_newline (a b : String) :
    (a ++ ("\n" ++ b)).data = a.data ++ '\n' :: b.data := by
  rw [String.data_append, String.data_append]
  rfl

theorem linesOf_append_newline {a : String} (b : String) (h : '\n' ∉ a.data) :
    linesOf (a ++ ("\n" ++ b)) = a :: linesOf b := by
  unfold linesOf
  rw [data_append_newline, splitNl_append, splitNl_no_newline h]
  rfl

theorem linesOf_goJoin (l : List String) (hl : l ≠ [])
    (h : ∀ s ∈ l, '\n' ∉ s.data) : linesOf (goJoin "\n" l) = l := by
  induction l with
  | nil => exact absurd rfl hl
  | cons s l ih =>
    cases l with
    | nil =>
      show linesOf s = [s]
      exact linesOf_no_newline (h s (List.mem_cons_self _ _))
    | cons s2 rest =>
      have hs : '\n' ∉ s.data := h s (List.mem_cons_self _ _)
      have hrest : ∀ t ∈ s2 :: rest, '\n' ∉ t.data :=
        fun t ht => h t (List.mem_cons_of_mem _ ht)
      show linesOf (s ++ "\n" ++ goJoin "\n" (s2 :: rest)) = _
      rw [String.append_assoc, linesOf_append_newline _ hs,
        ih (by simp) hrest]

theorem str_append_empty (s : String) : s ++ "" = s := by
  apply String.ext
  rw [String.data_append]
  exact List.append_nil _

theorem linesOf_empty : linesOf "" = [""] := rfl

theorem linesOf_append_newline_free (a b : String) :
    linesOf (a ++ ("\n" ++ b)) = linesOf a ++ linesOf b := by
  unfold linesOf
  rw [data_append_newline, splitNl_append, List.map_append]

theorem modelContent_eq (m : String) (sf : List String) :
    modelContent m sf =
      "package models" ++ ("\n" ++ ("" ++ ("\n" ++ ("import \"gorm.io/gorm\"" ++ ("\n" ++
        ("" ++ ("\n" ++ (("type " ++ goTitle m ++ " struct \x7b") ++ ("\n" ++
        ("\tgorm.Model" ++ ("\n" ++ (goJoin "\n" sf ++ ("\n" ++ ("\x7d" ++
        ("\n" ++ ""))))))))))))))) := by
  unfold modelContent modelContentTemplate
  have e1 : ("package models\n\nimport \"gorm.io/gorm\"\n\ntype " : String) =
      "package models" ++ "\n" ++ "" ++ "\n" ++ "import \"gorm.io/gorm\"" ++ "\n" ++
        "" ++ "\n" ++ "type " := by decide
  have e2 : (" struct \x7b\n\tgorm.Model\n" : String) =
      " struct \x7b" ++ "\n" ++ "\tgorm.Model" ++ "\n" := by decide
  have e3 : ("\n\x7d\n" : String) = "\n" ++ "\x7d" ++ "\n" ++ "" := by decide
  rw [e1, e2, e3]
  simp only [String.append_assoc]

theorem modelContent_linesOf (m : String) (sf : List String)
    (hm : '\n' ∉ (goTitle m).data) (hsf : ∀ s ∈ sf, '\n' ∉ s.data) :
    linesOf (modelContent m sf) =
      ["package models", "", "import \"gorm.io/gorm\"", "",
        "type " ++ goTitle m ++ " struct \x7b", "\tgorm.Model"] ++
      (if sf = [] then [""] else sf) ++ ["\x7d", ""] := by
  have htype : '\n' ∉ ("type " ++ goTitle m ++ " struct \x7b").data := by
    intro hmem
    rw [String.data_append, String.data_append] at hmem
    rcases List.mem_append.mp hmem with h1 | h1
    · rcases List.mem_append.mp h1 with h2 | h2
      · exact absurd h2 (by decide)
      · exact hm h2
    · exact absurd h1 (by decide)
  rw [modelContent_eq m sf]
  rw [linesOf_append_newline _ (by decide)]
  rw [linesOf_append_newline _ (by decide)]
  rw [linesOf_append_newline _ (by decide)]
  rw [linesOf_append_newline _ (by decide)]
  rw [linesOf_append_newline _ htype]
  rw [linesOf_append_newline _ (by decide)]
  rw [linesOf_append_newline_free]
  rw [linesOf_append_newline _ (by decide)]
  rw [linesOf_empty]
  by_cases hne : sf = []
  · subst hne
    simp [goJoin, linesOf_empty]
  · rw [linesOf_goJoin sf hne hsf]
    simp [hne]

theorem modelHandler_success (req : CallToolRequest) (a m fs : String)
    (l : List (List (String × String)))
    (ha : req.args.lookup "app_name" = some a) (hane : a ≠ "")
    (hm : req.args.lookup "model_name" = some m)
    (hf : req.args.lookup "fields" = some fs)
    (hp : parseFields fs = some l) :
    ProduceModelBoilerplateHandler req =
      .text (produceModelResponse (goTitle m) (goToLower m)
        (modelContent m (structFieldsOf l)) (goTitle m) (goToLower m) a) := by
  simp only [ProduceModelBoilerplateHandler, getString, requireString, ha, hm, hf, hp,
    if_neg hane]

/-! Lemmas about the substring test. -/

theorem isPrefixL_self (p : List Char) : isPrefixL p p = true := by
  induction p with
  | nil => rfl
  | cons c p ih => simp [isPrefixL, ih]

theorem isInfixL_self (p : List Char) : isInfixL p p = true := by
  cases p with
  | nil => rfl
  | cons c p => simp [isInfixL, isPrefixL_self]

theorem isInfixL_append_left {p ys : List Char} (xs : List Char)
    (h : isInfixL p ys = true) : isInfixL p (xs ++ ys) = true := by
  induction xs with
  | nil => exact h
  | cons c xs ih =>
    cases p with
    | nil => rfl
    | cons a q => simp [isInfixL, ih]

theorem goContains_append_self (pre h : String) :
    goContains (pre ++ h) h = true := by
  unfold goContains
  rw [String.data_append]
  exact isInfixL_append_left pre.data (isInfixL_self h.data)

/-! Lemmas about map lookups with Go map semantics. -/

theorem lookup_eq_none_of_not_mem {m : List (String × String)} {k : String}
    (h : k ∉ m.map Prod.fst) : m.lookup k = none := by
  induction m with
  | nil => rfl
  | cons p m ih =>
    simp only [List.map_cons, List.mem_cons] at h
    push_neg at h
    have hb : (k == p.1) = false := beq_eq_false_iff_ne.mpr h.1
    simp [List.lookup, hb, ih h.2]

theorem mapGet_of_not_mem {f : List (String × String)} {k : String}
    (h : k ∉ f.map Prod.fst) : mapGet f k = "" := by
  unfold mapGet
  rw [lookup_eq_none_of_not_mem]
  intro hmem
  rw [List.map_reverse, List.mem_reverse] at hmem
  exact h hmem

/-! Newline-freeness of generated struct-field lines. -/

theorem mkFieldLine_no_newline {n t : String} (hn : '\n' ∉ n.data)
    (ht : '\n' ∉ t.data) : '\n' ∉ (mkFieldLine n t).data := by
  have hgt := newline_not_mem_goTitle hn
  intro hmem
  unfold mkFieldLine at hmem
  simp +decide [String.data_append, List.mem_append, hgt, hn, ht] at hmem

/-! Error-path lemmas for the handlers. -/

theorem modelHandler_parse_error (req : CallToolRequest) (a m fs : String)
    (ha : req.args.lookup "app_name" = some a) (hane : a ≠ "")
    (hm : req.args.lookup "model_name" = some m)
    (hf : req.args.lookup "fields" = some fs)
    (hp : parseFields fs = none) :
    ProduceModelBoilerplateHandler req =
      .error "Invalid \x27fields\x27 JSON format: invalid JSON payload" := by
  simp only [ProduceModelBoilerplateHandler, getString, requireString, ha, hm, hf, hp,
    if_neg hane]

theorem modelHandler_empty_app (req : CallToolRequest)
    (h : getString req "app_name" "" = "") :
    ProduceModelBoilerplateHandler req = .error "App name is required" := by
  simp [ProduceModelBoilerplateHandler, h]

theorem apiHandler_empty_app (req : CallToolRequest)
    (h : getString req "app_name" "" = "") :
    ProduceApiControllerBoilerplateHandler req = .error "App name is required" := by
  simp [ProduceApiControllerBoilerplateHandler, h]

theorem serviceHandler_empty_app (req : CallToolRequest)
    (h : getString req "app_name" "" = "") :
    ProduceServiceBoilerplateHandler req = .error "App name is required" := by
  simp [ProduceServiceBoilerplateHandler, h]

theorem htmlHandler_empty_app (req : CallToolRequest)
    (h : getString req "app_name" "" = "") :
    ProduceHtmlControllerBoilerplateHandler req = .error "App name is required" := by
  simp [ProduceHtmlControllerBoilerplateHandler, h]

theorem modelHandler_missing_model_name (req : CallToolRequest) (a : String)
    (ha : getString req "app_name" "" = a) (hane : a ≠ "")
    (hm : req.args.lookup "model_name" = none) :
    ProduceModelBoilerplateHandler req =
      .error "Error getting \x27model_name\x27: required argument \"model_name\" not found" := by
  simp only [ProduceModelBoilerplateHandler, requireString, ha, hm, if_neg hane]
  rfl

theorem apiHandler_missing_model_name (req : CallToolRequest) (a : String)
    (ha : getString req "app_name" "" = a) (hane : a ≠ "")
    (hm : req.args.lookup "model_name" = none) :
    ProduceApiControllerBoilerplateHandler req =
      .error "Error getting \x27model_name\x27: required argument \"model_name\" not found" := by
  simp only [ProduceApiControllerBoilerplateHandler, requireString, ha, hm, if_neg hane]
  rfl

theorem serviceHandler_missing_model_name (req : CallToolRequest) (a : String)
    (ha : getString req "app_name" "" = a) (hane : a ≠ "")
    (hm : req.args.lookup "model_name" = none) :
    ProduceServiceBoilerplateHandler req =
      .error "Error getting \x27model_name\x27: required argument \"model_name\" not found" := by
  simp only [ProduceServiceBoilerplateHandler, requireString, ha, hm, if_neg hane]
  rfl

theorem htmlHandler_missing_model_name (req : CallToolRequest) (a : String)
    (ha : getString req "app_name" "" = a) (hane : a ≠ "")
    (hm : req.args.lookup "model_name" = none) :
    ProduceHtmlControllerBoilerplateHandler req =
      .error "Error getting \x27model_name\x27: required argument \"model_name\" not found" := by
  simp only [ProduceHtmlControllerBoilerplateHandler, requireString, ha, hm, if_neg hane]
  rfl

/-! The claim theorems. -/

/-- Claim C1: for every fields parameter that decodes to an ordered list of N
descriptor pairs (with line-shaped, i.e. newline-free, names, types and model
name), the model declaration emitted by the model-boilerplate handler contains
exactly N struct-field lines, one per input pair, in the order of the input
list; with an empty list the field region is a single blank line. -/
theorem modelDeclaration_field_lines (req : CallToolRequest) (a m fs : String)
    (l : List (List (String × String)))
    (ha : req.args.lookup "app_name" = some a) (hane : a ≠ "")
    (hm : req.args.lookup "model_name" = some m)
    (hf : req.args.lookup "fields" = some fs)
    (hp : parseFields fs = some l)
    (hmn : '\n' ∉ m.data)
    (hfl : ∀ f ∈ l, '\n' ∉ (mapGet f "name").data ∧ '\n' ∉ (mapGet f "type").data) :
    ProduceModelBoilerplateHandler req =
      .text (produceModelResponse (goTitle m) (goToLower m)
        (modelContent m (structFieldsOf l)) (goTitle m) (goToLower m) a) ∧
    (structFieldsOf l).length = l.length ∧
    linesOf (modelContent m (structFieldsOf l)) =
      ["package models", "", "import \"gorm.io/gorm\"", "",
        "type " ++ goTitle m ++ " struct \x7b", "\tgorm.Model"] ++
      (if l = [] then [""] else structFieldsOf l) ++ ["\x7d", ""] := by
  refine ⟨modelHandler_success req a m fs l ha hane hm hf hp, by simp [structFieldsOf], ?_⟩
  have hsf : ∀ s ∈ structFieldsOf l, '\n' ∉ s.data := by
    intro s hs
    rcases List.mem_map.mp hs with ⟨f, hfmem, rfl⟩
    exact mkFieldLine_no_newline (hfl f hfmem).1 (hfl f hfmem).2
  rw [modelContent_linesOf m (structFieldsOf l) (newline_not_mem_goTitle hmn) hsf]
  by_cases hl : l = []
  · subst hl
    simp [structFieldsOf]
  · have hsl : structFieldsOf l ≠ [] := by
      intro hc
      exact hl (List.map_eq_nil_iff.mp hc)
    rw [if_neg hsl, if_neg hl]

/-- Witness for C1 at a one-field request. -/
theorem modelDeclaration_field_lines_witness :
    ProduceModelBoilerplateHandler
        ⟨[("app_name", "myapp"), ("model_name", "user"),
          ("fields", "[\x7b\"name\":\"id\",\"type\":\"uint\"\x7d]")]⟩ =
      .text (produceModelResponse (goTitle "user") (goToLower "user")
        (modelContent "user" (structFieldsOf [[("name", "id"), ("type", "uint")]]))
        (goTitle "user") (goToLower "user") "myapp") ∧
    (structFieldsOf [[("name", "id"), ("type", "uint")]]).length =
      ([[("name", "id"), ("type", "uint")]] : List (List (String × String))).length ∧
    linesOf (modelContent "user" (structFieldsOf [[("name", "id"), ("type", "uint")]])) =
      ["package models", "", "import \"gorm.io/gorm\"", "",
        "type " ++ goTitle "user" ++ " struct \x7b", "\tgorm.Model"] ++
      (if ([[("name", "id"), ("type", "uint")]] : List (List (String × String))) = []
        then [""] else structFieldsOf [[("name", "id"), ("type", "uint")]]) ++
      ["\x7d", ""] :=
  modelDeclaration_field_lines _ "myapp" "user"
    "[\x7b\"name\":\"id\",\"type\":\"uint\"\x7d]" _ (by decide) (by decide) (by decide)
    (by decide) (by decide) (by decide) (by decide)

/-- Claim C2: each emitted struct-field line combines the capitalized field
name, the type string exactly as supplied, and a json serialization tag
carrying the original field name. -/
theorem fieldLine_combination (req : CallToolRequest) (a m fs : String)
    (l : List (List (String × String)))
    (ha : req.args.lookup "app_name" = some a) (hane : a ≠ "")
    (hm : req.args.lookup "model_name" = some m)
    (hf : req.args.lookup "fields" = some fs)
    (hp : parseFields fs = some l) :
    ProduceModelBoilerplateHandler req =
      .text (produceModelResponse (goTitle m) (goToLower m)
        (modelContent m (structFieldsOf l)) (goTitle m) (goToLower m) a) ∧
    ∀ (i : Nat) (field : List (String × String)), l[i]? = some field →
      (structFieldsOf l)[i]? =
        some ("\t" ++ goTitle (mapGet field "name") ++ " " ++ mapGet field "type" ++
          " \x60json:\"" ++ mapGet field "name" ++ "\"\x60") := by
  refine ⟨modelHandler_success req a m fs l ha hane hm hf hp, ?_⟩
  intro i field hif
  simp [structFieldsOf, List.getElem?_map, hif, mkFieldLine]

/-- Witness for C2 at a one-field request, index 0. -/
theorem fieldLine_combination_witness :
    (structFieldsOf [[("name", "id"), ("type", "uint")]])[0]? =
      some ("\t" ++ goTitle (mapGet [("name", "id"), ("type", "uint")] "name") ++ " " ++
        mapGet [("name", "id"), ("type", "uint")] "type" ++ " \x60json:\"" ++
        mapGet [("name", "id"), ("type", "uint")] "name" ++ "\"\x60") :=
  (fieldLine_combination
    ⟨[("app_name", "myapp"), ("model_name", "user"),
      ("fields", "[\x7b\"name\":\"id\",\"type\":\"uint\"\x7d]")]⟩ "myapp" "user"
    "[\x7b\"name\":\"id\",\"type\":\"uint\"\x7d]" _
    (by decide) (by decide) (by decide) (by decide) (by decide)).2 0 _ rfl

/-- Claim C3: the capitalization transform (strings.Title as applied to field
and model names) is idempotent and deterministic on every non-empty string. -/
theorem title_idempotent_deterministic (s : String) (h : s ≠ "") :
    goTitle (goTitle s) = goTitle s ∧ ∀ t, t = s → goTitle t = goTitle s :=
  ⟨goTitle_goTitle s, fun _ ht => by rw [ht]⟩

/-- Witness for C3 at a concrete two-word string. -/
theorem title_idempotent_deterministic_witness :
    goTitle (goTitle "hello world") = goTitle "hello world" ∧
    ∀ t, t = "hello world" → goTitle t = goTitle "hello world" :=
  title_idempotent_deterministic "hello world" (by decide)

/-- Claim C4: with all required string parameters present, the
model-boilerplate handler returns an InputError result exactly when the
fields string fails to decode, and any decodable list (its contents are not
validated) yields a success text result. -/
theorem inputerror_iff_fields_undecodable (req : CallToolRequest) (a m fs : String)
    (ha : req.args.lookup "app_name" = some a) (hane : a ≠ "")
    (hm : req.args.lookup "model_name" = some m)
    (hf : req.args.lookup "fields" = some fs) :
    ((∃ e, ProduceModelBoilerplateHandler req = .error e) ↔ parseFields fs = none) ∧
    ∀ l, parseFields fs = some l →
      ProduceModelBoilerplateHandler req =
        .text (produceModelResponse (goTitle m) (goToLower m)
          (modelContent m (structFieldsOf l)) (goTitle m) (goToLower m) a) := by
  constructor
  · constructor
    · rintro ⟨e, he⟩
      cases hp : parseFields fs with
      | none => rfl
      | some l =>
        rw [modelHandler_success req a m fs l ha hane hm hf hp] at he
        exact absurd he (by simp)
    · intro hp
      exact ⟨_, modelHandler_parse_error req a m fs ha hane hm hf hp⟩
  · intro l hp
    exact modelHandler_success req a m fs l ha hane hm hf hp

/-- Witness for C4 at the malformed payload "not json". -/
theorem inputerror_iff_fields_undecodable_witness :
    ((∃ e, ProduceModelBoilerplateHandler
        ⟨[("app_name", "myapp"), ("model_name", "User"), ("fields", "not json")]⟩ =
        .error e) ↔ parseFields "not json" = none) ∧
    ∀ l, parseFields "not json" = some l →
      ProduceModelBoilerplateHandler
        ⟨[("app_name", "myapp"), ("model_name", "User"), ("fields", "not json")]⟩ =
        .text (produceModelResponse (goTitle "User") (goToLower "User")
          (modelContent "User" (structFieldsOf l)) (goTitle "User") (goToLower "User")
          "myapp") :=
  inputerror_iff_fields_undecodable _ "myapp" "User" "not json" (by decide) (by decide)
    (by decide) (by decide)

/-- Claim C5: for every tool that requires the model name (the model, service,
API-controller and HTML-controller tools), a request supplying a non-empty
app name but omitting model_name yields an InputError whose text identifies
the missing model_name parameter. -/
theorem missing_model_name_identified (req : CallToolRequest) (a : String)
    (ha : getString req "app_name" "" = a) (hane : a ≠ "")
    (hm : req.args.lookup "model_name" = none) :
    (ProduceModelBoilerplateHandler req =
        .error "Error getting \x27model_name\x27: required argument \"model_name\" not found" ∧
      ProduceServiceBoilerplateHandler req =
        .error "Error getting \x27model_name\x27: required argument \"model_name\" not found" ∧
      ProduceApiControllerBoilerplateHandler req =
        .error "Error getting \x27model_name\x27: required argument \"model_name\" not found" ∧
      ProduceHtmlControllerBoilerplateHandler req =
        .error "Error getting \x27model_name\x27: required argument \"model_name\" not found") ∧
    goContains "Error getting \x27model_name\x27: required argument \"model_name\" not found"
      "model_name" = true :=
  ⟨⟨modelHandler_missing_model_name req a ha hane hm,
    serviceHandler_missing_model_name req a ha hane hm,
    apiHandler_missing_model_name req a ha hane hm,
    htmlHandler_missing_model_name req a ha hane hm⟩, by decide⟩

/-- Witness for C5 at a request carrying only an app name. -/
theorem missing_model_name_identified_witness :
    (ProduceModelBoilerplateHandler ⟨[("app_name", "myapp")]⟩ =
        .error "Error getting \x27model_name\x27: required argument \"model_name\" not found" ∧
      ProduceServiceBoilerplateHandler ⟨[("app_name", "myapp")]⟩ =
        .error "Error getting \x27model_name\x27: required argument \"model_name\" not found" ∧
      ProduceApiControllerBoilerplateHandler ⟨[("app_name", "myapp")]⟩ =
        .error "Error getting \x27model_name\x27: required argument \"model_name\" not found" ∧
      ProduceHtmlControllerBoilerplateHandler ⟨[("app_name", "myapp")]⟩ =
        .error "Error getting \x27model_name\x27: required argument \"model_name\" not found") ∧
    goContains "Error getting \x27model_name\x27: required argument \"model_name\" not found"
      "model_name" = true :=
  missing_model_name_identified ⟨[("app_name", "myapp")]⟩ "myapp" (by decide) (by decide)
    (by decide)

/-- Claim C6: the fix_app output carries the extra import-path hint exactly
when the supplied error message contains the substring "is not in std": with
the substring the output is the checklist text followed by the hint (and so
contains the hint); without it (including an absent or empty error message)
the output is exactly the checklist text with no hint appended. -/
theorem fixapp_hint_iff (req : CallToolRequest) :
    (goContains (getString req "error_message" "") "is not in std" = true →
      ∃ pre, FixAppHandler req = .text (pre ++ fixAppStdHint) ∧
        goContains (pre ++ fixAppStdHint) fixAppStdHint = true) ∧
    (goContains (getString req "error_message" "") "is not in std" = false →
      FixAppHandler req = .text (fixAppIntro ++
        (if getString req "app_name" "" ≠ "" then
          fixAppForApplication (getString req "app_name" "") else "") ++
        fixAppChecklistBody (getString req "app_name" "") ++
        (if getString req "error_message" "" ≠ "" then
          fixAppRegardingError (getString req "error_message" "") else ""))) := by
  constructor
  · intro hc
    have hem : getString req "error_message" "" ≠ "" := by
      intro he
      rw [he] at hc
      exact absurd hc (by decide)
    refine ⟨fixAppIntro ++
      (if getString req "app_name" "" ≠ "" then
        fixAppForApplication (getString req "app_name" "") else "") ++
      fixAppChecklistBody (getString req "app_name" "") ++
      fixAppRegardingError (getString req "error_message" ""), ?_,
      goContains_append_self _ _⟩
    simp only [FixAppHandler, if_pos hem, hc, if_true, reduceIte]
    simp [String.append_assoc]
  · intro hc
    simp only [FixAppHandler, hc, Bool.false_eq_true, if_false]
    by_cases hem : getString req "error_message" "" = ""
    · simp [hem]
    · simp only [if_pos hem, hem, ne_eq, not_false_iff, if_true, str_append_empty]

/-- Witness for C6: a message containing the substring produces the hint, one
without it does not. -/
theorem fixapp_hint_iff_witness :
    ∃ pre, FixAppHandler ⟨[("error_message", "package x is not in std")]⟩ =
        .text (pre ++ fixAppStdHint) ∧
      goContains (pre ++ fixAppStdHint) fixAppStdHint = true :=
  (fixapp_hint_iff ⟨[("error_message", "package x is not in std")]⟩).1 (by decide)

/-- Claim C7: every tool handler is modelled as a pure function of the
request, with no state and no effects; in particular equal requests produce
byte-identical results for all six handlers. -/
theorem handlers_deterministic (r s : CallToolRequest) (h : r = s) :
    ProduceAppBoilerplateHandler r = ProduceAppBoilerplateHandler s ∧
    ProduceModelBoilerplateHandler r = ProduceModelBoilerplateHandler s ∧
    ProduceServiceBoilerplateHandler r = ProduceServiceBoilerplateHandler s ∧
    ProduceApiControllerBoilerplateHandler r = ProduceApiControllerBoilerplateHandler s ∧
    ProduceHtmlControllerBoilerplateHandler r = ProduceHtmlControllerBoilerplateHandler s ∧
    FixAppHandler r = FixAppHandler s := by
  subst h
  exact ⟨rfl, rfl, rfl, rfl, rfl, rfl⟩

/-- Witness for C7 at a concrete request. -/
theorem handlers_deterministic_witness :
    ProduceAppBoilerplateHandler ⟨[("app_name", "demo")]⟩ =
      ProduceAppBoilerplateHandler ⟨[("app_name", "demo")]⟩ ∧
    ProduceModelBoilerplateHandler ⟨[("app_name", "demo")]⟩ =
      ProduceModelBoilerplateHandler ⟨[("app_name", "demo")]⟩ ∧
    ProduceServiceBoilerplateHandler ⟨[("app_name", "demo")]⟩ =
      ProduceServiceBoilerplateHandler ⟨[("app_name", "demo")]⟩ ∧
    ProduceApiControllerBoilerplateHandler ⟨[("app_name", "demo")]⟩ =
      ProduceApiControllerBoilerplateHandler ⟨[("app_name", "demo")]⟩ ∧
    ProduceHtmlControllerBoilerplateHandler ⟨[("app_name", "demo")]⟩ =
      ProduceHtmlControllerBoilerplateHandler ⟨[("app_name", "demo")]⟩ ∧
    FixAppHandler ⟨[("app_name", "demo")]⟩ = FixAppHandler ⟨[("app_name", "demo")]⟩ :=
  handlers_deterministic ⟨[("app_name", "demo")]⟩ ⟨[("app_name", "demo")]⟩ rfl

/-- Claim C8: a decodable descriptor object lacking the name or type key (or
carrying extra keys) still yields a success result and a field line, with
each missing key rendered as the empty string in its position. -/
theorem missing_keys_default_empty (req : CallToolRequest) (a m fs : String)
    (l : List (List (String × String)))
    (ha : req.args.lookup "app_name" = some a) (hane : a ≠ "")
    (hm : req.args.lookup "model_name" = some m)
    (hf : req.args.lookup "fields" = some fs)
    (hp : parseFields fs = some l) :
    ProduceModelBoilerplateHandler req =
      .text (produceModelResponse (goTitle m) (goToLower m)
        (modelContent m (structFieldsOf l)) (goTitle m) (goToLower m) a) ∧
    structFieldsOf l =
      l.map (fun f => mkFieldLine (mapGet f "name") (mapGet f "type")) ∧
    ∀ f ∈ l, ("name" ∉ f.map Prod.fst → mapGet f "name" = "") ∧
      ("type" ∉ f.map Prod.fst → mapGet f "type" = "") := by
  refine ⟨modelHandler_success req a m fs l ha hane hm hf hp, rfl, ?_⟩
  intro f _
  exact ⟨fun h => mapGet_of_not_mem h, fun h => mapGet_of_not_mem h⟩

/-- Witness for C8: one object with only a type, one with a name and an extra
key. -/
theorem missing_keys_default_empty_witness :
    ProduceModelBoilerplateHandler
        ⟨[("app_name", "myapp"), ("model_name", "user"),
          ("fields",
            "[\x7b\"type\":\"int\"\x7d,\x7b\"name\":\"x\",\"extra\":\"y\"\x7d]")]⟩ =
      .text (produceModelResponse (goTitle "user") (goToLower "user")
        (modelContent "user"
          (structFieldsOf [[("type", "int")], [("name", "x"), ("extra", "y")]]))
        (goTitle "user") (goToLower "user") "myapp") ∧
    structFieldsOf [[("type", "int")], [("name", "x"), ("extra", "y")]] =
      ([[("type", "int")], [("name", "x"), ("extra", "y")]] :
          List (List (String × String))).map
        (fun f => mkFieldLine (mapGet f "name") (mapGet f "type")) ∧
    ∀ f ∈ ([[("type", "int")], [("name", "x"), ("extra", "y")]] :
        List (List (String × String))),
      ("name" ∉ f.map Prod.fst → mapGet f "name" = "") ∧
      ("type" ∉ f.map Prod.fst → mapGet f "type" = "") :=
  missing_keys_default_empty _ "myapp" "user"
    "[\x7b\"type\":\"int\"\x7d,\x7b\"name\":\"x\",\"extra\":\"y\"\x7d]" _
    (by decide) (by decide) (by decide) (by decide) (by decide)

/-- Claim C9: the four model-based tools do not mark app_name required in
their declared schemas, yet their handlers reject an absent or empty app_name
with the error "App name is required", so app_name is effectively required
for them; by contrast the app-boilerplate tool marks app_name required in its
schema (and its handler accepts a present empty value), and fix_app always
succeeds. -/
theorem app_name_effectively_required (req : CallToolRequest)
    (h : getString req "app_name" "" = "") :
    (paramRequired getProduceModelBoilerplateTool "app_name" = false ∧
      paramRequired getProduceServiceBoilerplateTool "app_name" = false ∧
      paramRequired getProduceApiControllerBoilerplateTool "app_name" = false ∧
      paramRequired getProduceHtmlControllerBoilerplateTool "app_name" = false) ∧
    (ProduceModelBoilerplateHandler req = .error "App name is required" ∧
      ProduceServiceBoilerplateHandler req = .error "App name is required" ∧
      ProduceApiControllerBoilerplateHandler req = .error "App name is required" ∧
      ProduceHtmlControllerBoilerplateHandler req = .error "App name is required") ∧
    paramRequired getProduceAppBoilerplateTool "app_name" = true ∧
    (∀ req2 : CallToolRequest, req2.args.lookup "app_name" = some "" →
      ProduceAppBoilerplateHandler req2 =
        .text (appBoilerplateResponse "" "" "" "" "" "")) ∧
    (∃ s, FixAppHandler req = .text s) := by
  refine ⟨⟨by decide, by decide, by decide, by decide⟩,
    ⟨modelHandler_empty_app req h, serviceHandler_empty_app req h,
      apiHandler_empty_app req h, htmlHandler_empty_app req h⟩,
    by decide, ?_, ⟨_, rfl⟩⟩
  intro req2 h2
  simp only [ProduceAppBoilerplateHandler, requireString, h2]

/-- Witness for C9 at a request without an app name. -/
theorem app_name_effectively_required_witness :
    (paramRequired getProduceModelBoilerplateTool "app_name" = false ∧
      paramRequired getProduceServiceBoilerplateTool "app_name" = false ∧
      paramRequired getProduceApiControllerBoilerplateTool "app_name" = false ∧
      paramRequired getProduceHtmlControllerBoilerplateTool "app_name" = false) ∧
    (ProduceModelBoilerplateHandler ⟨[("model_name", "User")]⟩ =
        .error "App name is required" ∧
      ProduceServiceBoilerplateHandler ⟨[("model_name", "User")]⟩ =
        .error "App name is required" ∧
      ProduceApiControllerBoilerplateHandler ⟨[("model_name", "User")]⟩ =
        .error "App name is required" ∧
      ProduceHtmlControllerBoilerplateHandler ⟨[("model_name", "User")]⟩ =
        .error "App name is required") ∧
    paramRequired getProduceAppBoilerplateTool "app_name" = true ∧
    (∀ req2 : CallToolRequest, req2.args.lookup "app_name" = some "" →
      ProduceAppBoilerplateHandler req2 =
        .text (appBoilerplateResponse "" "" "" "" "" "")) ∧
    (∃ s, FixAppHandler ⟨[("model_name", "User")]⟩ = .text s) :=
  app_name_effectively_required ⟨[("model_name", "User")]⟩ (by decide)

/-- Claim C10: the fix_app handler never returns an error result: every
request, including one with no arguments at all, yields a success text
payload. -/
theorem fixapp_never_errors (req : CallToolRequest) :
    ∃ s, FixAppHandler req = .text s :=
  ⟨_, rfl⟩
